import Mathlib

/-!
Verification of the route-planner backend (Python sources under src/backend).

Shallow embedding conventions:
* Python floats are modelled as exact rationals (for the pure arithmetic of
  the cost estimator and the route scorer) or as real numbers (for the
  trigonometric Haversine distance), with decimal literals read exactly.
* Python round(x, n) (round half to even) is modelled by
  roundHalfEven below.
* JSON values that the code stores but never inspects are modelled by the
  opaque constructor JVal.other; values the code does inspect (numbers and
  strings) get their own constructors.
* Python dicts are association lists with unique keys in insertion order;
  dict.update mutates existing keys in place and appends new ones, which
  dictUpdate reproduces.
* Fallible Python code is modelled with Except; the error type PyErr names
  the exception classes the claims mention.
-/

/-- A JSON-ish value as stored in the dictionaries this backend shuffles
around.  Numbers and strings are inspected by the code under verification;
every other shape (booleans, nulls, nested arrays and objects) is only ever
copied around opaquely, and is collapsed into the constructor other with a
tag so that distinct opaque values stay distinct. -/
inductive JVal where
  | num (q : ℚ)
  | str (s : String)
  | other (tag : ℕ)
deriving DecidableEq, Repr

/-- A Python dict with JVal values: an association list in insertion order. -/
abbrev JDict := List (String × JVal)

/-- An element of a parsed JSON array: either a dict or some non-dict value
(kept opaque, since the code only ever asks isinstance(route, dict)). -/
inductive JElem where
  | dict (d : JDict)
  | nondict (tag : ℕ)
deriving DecidableEq, Repr

/-- A parsed top-level JSON document: either a list of elements or some
non-list value. -/
inductive JTop where
  | list (items : List JElem)
  | nonlist (tag : ℕ)
deriving DecidableEq, Repr

/-- The Python exceptions that the claims talk about. -/
inductive PyErr where
  | keyError (k : String)
  | zeroDivisionError
  | typeError
deriving DecidableEq, Repr

deriving instance DecidableEq for Except

/-- d[k] as an Option: first binding of key k (Python dicts have at most
one). -/
def dictGet (d : JDict) (k : String) : Option JVal :=
  (d.find? (fun p => p.1 == k)).map (fun p => p.2)

/-- d[k] = v, Python style: overwrite the existing binding in place, or
append a new binding at the end. -/
def dictSet (d : JDict) (k : String) (v : JVal) : JDict :=
  if (d.find? (fun p => p.1 == k)).isSome then
    d.map (fun p => if p.1 == k then (p.1, v) else p)
  else
    d ++ [(k, v)]

/-- dict.update: apply each binding of u to d in order. -/
def dictUpdate (d u : JDict) : JDict :=
  u.foldl (fun acc kv => dictSet acc kv.1 kv.2) d

/-- route.get(k, default) restricted to numeric defaults, as used for
total_cost and risk_score.  A present non-numeric value would raise a
TypeError later in Python; the claims under verification only quantify over
inputs whose numeric fields are numeric, so the default is returned in that
(unexercised) case as well. -/
def getNumD (d : JDict) (k : String) (dflt : ℚ) : ℚ :=
  match dictGet d k with
  | some (.num q) => q
  | some _ => dflt
  | none => dflt

/-- max(l) for a nonempty list of numbers; max([]) raises in Python but is
only ever called on nonempty lists here (the empty-list guard runs first),
so the junk value 0 for [] is never exercised. -/
def pyMax : List ℚ → ℚ
  | [] => 0
  | x :: xs => xs.foldl max x

/-- min(l), same remarks as pyMax. -/
def pyMin : List ℚ → ℚ
  | [] => 0
  | x :: xs => xs.foldl min x

/-- Round to the nearest integer, ties to even: the rounding Python round()
uses. -/
def roundHalfEven {α : Type} [LinearOrderedField α] [FloorRing α] (x : α) : ℤ :=
  if x - (⌊x⌋ : α) < 1/2 then ⌊x⌋
  else if 1/2 < x - (⌊x⌋ : α) then ⌊x⌋ + 1
  else if ⌊x⌋ % 2 = 0 then ⌊x⌋ else ⌊x⌋ + 1

/-- Python round(x, 2). -/
def pyRound2 {α : Type} [LinearOrderedField α] [FloorRing α] (x : α) : α :=
  (roundHalfEven (x * 100) : α) / 100

/-- Python round(x, 3). -/
def pyRound3 {α : Type} [LinearOrderedField α] [FloorRing α] (x : α) : α :=
  (roundHalfEven (x * 1000) : α) / 1000

/-! ## Cost estimator (src/backend/tools/route_planning_tools.py, estimate_shipping_costs) -/

/-- str.lower() on the ASCII mode names this code compares against
(characterwise lowercasing; the Unicode cases Python also folds never
match any key of the tables below). -/
def py_lower (s : String) : String := ⟨s.data.map Char.toLower⟩

/-- base_costs.get(transport_mode.lower(), 1.0): per-km per-unit USD rate. -/
def cost_per_km (transport_mode : String) : ℚ :=
  if py_lower transport_mode = "air" then 5/2
  else if py_lower transport_mode = "sea" then 3/10
  else if py_lower transport_mode = "land" then 6/5
  else if py_lower transport_mode = "rail" then 4/5
  else if py_lower transport_mode = "multimodal" then 1
  else 1

/-- The tiered volume discount of estimate_shipping_costs. -/
def volume_discount (distance_km : ℚ) (quantity : ℤ) : ℚ :=
  if distance_km > 5000 ∧ quantity > 1000 then 15/100
  else if distance_km > 2000 ∧ quantity > 500 then 10/100
  else if quantity > 100 then 5/100
  else 0

/-- fixed_costs.get(transport_mode.lower(), 400): flat handling fee. -/
def handling_fee (transport_mode : String) : ℚ :=
  if py_lower transport_mode = "air" then 500
  else if py_lower transport_mode = "sea" then 800
  else if py_lower transport_mode = "land" then 200
  else if py_lower transport_mode = "rail" then 300
  else if py_lower transport_mode = "multimodal" then 600
  else 400

/-- The fields of the dictionary returned by estimate_shipping_costs
(the echoed inputs transport_mode and risk_multiplier are omitted). -/
structure CostEstimate where
  base_cost : ℚ
  volume_discount_rate : ℚ
  discount_amount : ℚ
  risk_adjustment : ℚ
  handling_fee : ℚ
  total_cost : ℚ
  cost_per_unit : ℚ
deriving DecidableEq, Repr

/-- estimate_shipping_costs(distance_km, transport_mode, quantity,
risk_multiplier), translated line by line.  cost_per_unit divides by the
quantity; Python raises ZeroDivisionError at quantity = 0 where the rational
division returns 0, and the claims only concern positive quantities. -/
def estimate_shipping_costs (distance_km : ℚ) (transport_mode : String)
    (quantity : ℤ) (risk_multiplier : ℚ) : CostEstimate :=
  let cpk := cost_per_km transport_mode
  let base_cost := distance_km * cpk * (quantity : ℚ) * (1/100)
  let vd := volume_discount distance_km quantity
  let discounted_cost := base_cost * (1 - vd)
  let final_cost := discounted_cost * risk_multiplier
  let fee := handling_fee transport_mode
  let total_cost := final_cost + fee
  { base_cost := pyRound2 base_cost
    volume_discount_rate := vd
    discount_amount := pyRound2 (base_cost * vd)
    risk_adjustment := pyRound2 (discounted_cost * risk_multiplier - discounted_cost)
    handling_fee := fee
    total_cost := pyRound2 total_cost
    cost_per_unit := pyRound2 (total_cost / (quantity : ℚ)) }

/-! ## Agent loop completion predicate
(src/backend/agents/route_planning_agent.py, _are_routes_complete) -/

/-- The route-planning graph state, restricted to the three collections the
completion predicate counts (elements are opaque). -/
structure RoutePlanningState where
  candidate_routes : List JVal
  optimized_routes : List JVal
  device_forecasts : List JVal

/-- _are_routes_complete: true means the graph transitions to finalize,
false means it keeps planning. -/
def are_routes_complete (state : RoutePlanningState) : Bool :=
  decide (state.candidate_routes.length ≥ state.device_forecasts.length) ||
  decide (state.optimized_routes.length ≥ 1) ||
  decide (state.candidate_routes.length ≥ 3)

/-! ## Route scorer and ranker
(src/backend/tools/route_planning_tools.py, optimize_route_selection) -/

/-- One scored route: the original candidate dict (base) together with the
fields the function adds to its copy.  Python adds recommended and
recommendation_reason only during the ranking pass; here they are fields
with the inert defaults false and the empty string until that pass sets
them. -/
structure ScoredRoute where
  base : JDict
  cost_score : ℚ
  risk_score_normalized : ℚ
  time_score : ℚ
  reliability_score : ℚ
  composite_score : ℚ
  optimization_rank : ℕ
  recommended : Bool
  recommendation_reason : String
deriving DecidableEq, Repr

/-- time_factors.get(mode, 0.5) where mode = route.get("transport_mode",
"land"): the argument is the raw looked-up value, so any non-string mode
misses the string-keyed table and yields the 0.5 default exactly as in
Python. -/
def time_factor (mode : JVal) : ℚ :=
  match mode with
  | .str s =>
      if s = "air" then 9/10
      else if s = "sea" then 3/10
      else if s = "land" then 6/10
      else if s = "rail" then 7/10
      else if s = "multimodal" then 5/10
      else 1/2
  | _ => 1/2

/-- reliability_factors.get(mode, 0.6), same convention as time_factor. -/
def reliability_factor (mode : JVal) : ℚ :=
  match mode with
  | .str s =>
      if s = "air" then 8/10
      else if s = "sea" then 6/10
      else if s = "land" then 7/10
      else if s = "rail" then 9/10
      else if s = "multimodal" then 6/10
      else 6/10
  | _ => 6/10

/-- r.get("total_cost", 1000) inside the max/min comprehensions, which run
over the whole candidate list.  On a non-dict element Python would raise
AttributeError; the claims only quantify over lists in which either every
element is a dict or no element is (and in the latter case the comprehension
is never executed), so that branch is unexercised. -/
def elem_total_cost (e : JElem) : ℚ :=
  match e with
  | .dict d => getNumD d "total_cost" 1000
  | .nondict _ => 1000

/-- The body of the scoring loop for one candidate dict, in the context of
the full candidate list (needed for the min/max cost normalization).
Weights: cost 0.35, risk 0.25, time 0.20, reliability 0.20. -/
def score_route (candidate_routes : List JElem) (route : JDict) : ScoredRoute :=
  let cost := getNumD route "total_cost" 1000
  let risk_score := getNumD route "risk_score" (1/2)
  let mode := (dictGet route "transport_mode").getD (.str "land")
  let max_cost := pyMax (candidate_routes.map elem_total_cost)
  let min_cost := pyMin (candidate_routes.map elem_total_cost)
  let cost_score := if max_cost ≠ min_cost then 1 - ((cost - min_cost) / (max_cost - min_cost)) else 1
  let risk_score_normalized := 1 - risk_score
  let time_score := time_factor mode
  let reliability_score := reliability_factor mode
  let composite_score :=
    cost_score * (35/100) + risk_score_normalized * (25/100) +
    time_score * (20/100) + reliability_score * (20/100)
  { base := route
    cost_score := pyRound3 cost_score
    risk_score_normalized := pyRound3 risk_score_normalized
    time_score := pyRound3 time_score
    reliability_score := pyRound3 reliability_score
    composite_score := pyRound3 composite_score
    optimization_rank := 0
    recommended := false
    recommendation_reason := "" }

/-- The scoring loop: non-dict elements are skipped with continue. -/
def score_routes (candidate_routes : List JElem) : List ScoredRoute :=
  candidate_routes.filterMap (fun e =>
    match e with
    | .dict d => some (score_route candidate_routes d)
    | .nondict _ => none)

/-- The comparison under sorted(key=composite_score, reverse=True): a
before b when the composite score of a is at least that of b; equal scores
keep input order, which is exactly stable mergeSort with this relation. -/
def composite_ge (a b : ScoredRoute) : Bool :=
  decide (b.composite_score ≤ a.composite_score)

/-- One step of the ranking loop: position i gets rank i+1, recommended for
i < 3, and a recommendation reason chosen from the stored (rounded)
sub-scores. -/
def assign_rank (r : ScoredRoute) (i : ℕ) : ScoredRoute :=
  { r with
    optimization_rank := i + 1
    recommended := decide (i < 3)
    recommendation_reason :=
      if i = 0 then "Best overall balance of cost, risk, and reliability"
      else if 8/10 < r.cost_score then "Most cost-effective option"
      else if 8/10 < r.risk_score_normalized then "Lowest risk alternative"
      else if 8/10 < r.time_score then "Fastest delivery option"
      else "Balanced alternative option" }

/-- The enumerate loop over the sorted list, starting at index i. -/
def rank_from (i : ℕ) : List ScoredRoute → List ScoredRoute
  | [] => []
  | r :: rest => assign_rank r i :: rank_from (i + 1) rest

/-- sum(r[k] for r in l) over scored-route dicts: missing key raises
KeyError, a present non-number raises TypeError (summing), leftmost error
first, exactly as the Python generator is consumed. -/
def sum_key (k : String) : List ScoredRoute → Except PyErr ℚ
  | [] => .ok 0
  | r :: rest =>
    match dictGet r.base k with
    | none => .error (.keyError k)
    | some (.num q) =>
        match sum_key k rest with
        | .error e => .error e
        | .ok s => .ok (q + s)
    | some _ => .error .typeError

/-- optimized_routes[0]["id"] if optimized_routes else None. -/
def best_route_id (l : List ScoredRoute) : Except PyErr (Option JVal) :=
  match l with
  | [] => .ok none
  | r :: _ =>
    match dictGet r.base "id" with
    | some v => .ok (some v)
    | none => .error (.keyError "id")

/-- The value returned by optimize_route_selection on the success path
(constant metadata such as the weight table is omitted). -/
structure OptimizationOutput where
  optimized_routes : List ScoredRoute
  recommended_routes : List ScoredRoute
  total_routes_analyzed : ℕ
  recommended_count : ℕ
  average_cost : ℚ
  average_risk_score : ℚ
  best_route_id : Option JVal
deriving DecidableEq, Repr

/-- Either the error dictionary the guards return, or the full result. -/
inductive OptResult where
  | err (msg : String)
  | ok (out : OptimizationOutput)
deriving DecidableEq, Repr

/-- The portion of optimize_route_selection after the guards: scoring,
stable descending sort on composite_score, ranking, then the summary
statistics whose item accesses and division can raise. -/
def optimize_body (candidate_routes : List JElem) : Except PyErr OptResult :=
  let scored_routes := score_routes candidate_routes
  let optimized_routes := (scored_routes.mergeSort composite_ge)
  let ranked := rank_from 0 optimized_routes
  match sum_key "total_cost" ranked with
  | .error e => .error e
  | .ok cost_sum =>
    if ranked.length = 0 then .error .zeroDivisionError
    else
      match sum_key "risk_score" ranked with
      | .error e => .error e
      | .ok risk_sum =>
        let avg_cost := cost_sum / (ranked.length : ℚ)
        let avg_risk := risk_sum / (ranked.length : ℚ)
        let recommended_routes := ranked.filter (fun r => r.recommended)
        match best_route_id ranked with
        | .error e => .error e
        | .ok bid =>
          .ok (.ok
            { optimized_routes := ranked
              recommended_routes := recommended_routes
              total_routes_analyzed := ranked.length
              recommended_count := recommended_routes.length
              average_cost := pyRound2 avg_cost
              average_risk_score := pyRound3 avg_risk
              best_route_id := bid })

/-- optimize_route_selection(candidate_routes_json).  The argument is the
result of json.loads on the input string: none for a string that fails to
parse (the first guard returns an error dictionary), otherwise the parsed
document. -/
def optimize_route_selection (parsed : Option JTop) : Except PyErr OptResult :=
  match parsed with
  | none => .ok (.err "Invalid JSON format for candidate routes")
  | some (.nonlist _) => .ok (.err "No candidate routes provided")
  | some (.list []) => .ok (.err "No candidate routes provided")
  | some (.list (e :: es)) => optimize_body (e :: es)

/-- Reset the fields the ranking pass writes, so that the ranked output can
be compared elementwise with the pre-ranking scored list. -/
def clear_rank (r : ScoredRoute) : ScoredRoute :=
  { r with optimization_rank := 0, recommended := false, recommendation_reason := "" }

/-! ## In-memory storage (src/backend/utils/storage.py) -/

/-- TaskStorage.tasks: task id to task record (a mutable dict). -/
abbrev TaskStore := List (String × JDict)

/-- TaskStorage.get_task. -/
def get_task (ts : TaskStore) (task_id : String) : Option JDict :=
  (ts.find? (fun p => p.1 == task_id)).map (fun p => p.2)

/-- TaskStorage.update_task: merge the updates into the record if the task
exists, otherwise do nothing. -/
def update_task (ts : TaskStore) (task_id : String) (updates : JDict) : TaskStore :=
  if (ts.find? (fun p => p.1 == task_id)).isSome then
    ts.map (fun p => if p.1 == task_id then (p.1, dictUpdate p.2 updates) else p)
  else ts

/-- The OptimizedRoute pydantic model (src/backend/models/schemas.py); the
waypoint list is opaque to the endpoints verified here. -/
structure OptimizedRoute where
  id : String
  points : List JVal
  total_cost : ℚ
  total_distance : ℚ
  risk_score : ℚ
  transport_mode : String
  estimated_duration : String
  status : String
deriving DecidableEq, Repr

/-- RouteStorage.routes. -/
abbrev RouteStore := List (String × OptimizedRoute)

/-- RouteStorage.get_route. -/
def get_route (rs : RouteStore) (route_id : String) : Option OptimizedRoute :=
  (rs.find? (fun p => p.1 == route_id)).map (fun p => p.2)

/-- RouteStorage.store_route: dict assignment, overwrite or append. -/
def store_route (rs : RouteStore) (route_id : String) (r : OptimizedRoute) : RouteStore :=
  if (rs.find? (fun p => p.1 == route_id)).isSome then
    rs.map (fun p => if p.1 == route_id then (p.1, r) else p)
  else rs ++ [(route_id, r)]

/-- In-place mutation route.status = value of the stored object with the
given id. -/
def set_route_status (rs : RouteStore) (route_id : String) (st : String) : RouteStore :=
  rs.map (fun p => if p.1 == route_id then (p.1, { p.2 with status := st }) else p)

/-- RouteStorage.approve_route: set status to approved when the id exists. -/
def approve_route_store (rs : RouteStore) (route_id : String) : RouteStore :=
  if (rs.find? (fun p => p.1 == route_id)).isSome then
    set_route_status rs route_id "approved"
  else rs

/-- UploadStorage.uploads (records opaque to the endpoints verified here). -/
abbrev UploadStore := List (String × JVal)

/-- The three module-level stores of src/backend/main.py. -/
structure AppStorage where
  tasks : TaskStore
  routes : RouteStore
  uploads : UploadStore
deriving DecidableEq, Repr

/-- The status string the approve endpoint writes for a given approval
flag. -/
def approval_status (approved : Bool) : String :=
  if approved then "approved" else "rejected"

/-- The JSON body returned by the approve endpoint (the approved_at wall
clock timestamp is omitted). -/
structure ApprovalResponse where
  route_id : String
  status : String
  comments : Option String
deriving DecidableEq, Repr

/-- POST /api/v1/routes/route_id/approve (src/backend/main.py,
approve_route): 404 when the id is unknown, otherwise set the status to
approved or rejected.  The approved path goes through
RouteStorage.approve_route, the rejected path mutates the looked-up object
directly; both are in-place status writes on the same stored object. -/
def approve_route_endpoint (st : AppStorage) (route_id : String)
    (approved : Bool) (comments : Option String) :
    AppStorage × Except ℕ ApprovalResponse :=
  match get_route st.routes route_id with
  | none => (st, .error 404)
  | some _ =>
    if approved then
      ({ st with routes := approve_route_store st.routes route_id },
       .ok ⟨route_id, "approved", comments⟩)
    else
      ({ st with routes := set_route_status st.routes route_id "rejected" },
       .ok ⟨route_id, "rejected", comments⟩)

/-! ## Background task (src/backend/main.py, process_supply_chain_analysis) -/

/-- First task update of the background task. -/
def processing_update : JDict :=
  [("status", .str "processing"), ("progress", .num 20),
   ("current_step", .str "starting_analysis")]

/-- Update after the information agent returns. -/
def info_complete_update (info : JVal) : JDict :=
  [("progress", .num 60), ("current_step", .str "information_agent_complete"),
   ("info_analysis", info)]

/-- Update taken when the scenario is disabled. -/
def info_skipped_update : JDict :=
  [("progress", .num 60), ("current_step", .str "information_agent_skipped")]

/-- Update before the route agent runs. -/
def start_route_update : JDict :=
  [("progress", .num 65), ("current_step", .str "starting_route_agent")]

/-- Final update of the success path. -/
def completed_update (result : JVal) (now_completed : String) : JDict :=
  [("status", .str "completed"), ("progress", .num 100),
   ("current_step", .str "analysis_complete"), ("result", result),
   ("completed_at", .str now_completed)]

/-- The update applied by the single top-level except handler:
status failed, stringified exception in the error field. -/
def failed_update (msg : String) (now_failed : String) : JDict :=
  [("status", .str "failed"), ("progress", .num 0),
   ("current_step", .str "error"), ("error", .str msg),
   ("failed_at", .str now_failed)]

/-- The keys the except handler writes. -/
def failed_update_keys : List String :=
  ["status", "progress", "current_step", "error", "failed_at"]

/-- The keys the success-path completion update writes; error is not among
them, so a completed run never touches the error field. -/
def completed_update_keys : List String :=
  ["status", "progress", "current_step", "result", "completed_at"]

/-- The constant empty-analysis dict built when the scenario is disabled;
its contents are never inspected by this function, so it is represented by
an opaque value. -/
def empty_info : JVal := .other 0

/-- process_supply_chain_analysis.  The two agent invocations are external
LLM-driven calls: each is an oracle that may mutate the task store (the
agents call update_task internally) and either returns a result or raises
(Except.error carries str(e)).  The route agent result dict is represented
by its stored value paired with the list held under its optimized_routes
key; OptimizedRoute.from_dict is the oracle route_from_dict, whose failures
are caught per route by the inner try; mk_final_result builds the final
result dict from the two agent results.  Any exception from either agent
call reaches the single top-level except handler, which applies
failed_update; nothing else in the body can raise. -/
def process_supply_chain_analysis
    (task_id : String) (enable_scenario : Bool)
    (info_agent : TaskStore → TaskStore × Except String JVal)
    (route_agent : JVal → TaskStore → TaskStore × Except String (JVal × List JVal))
    (route_from_dict : JVal → Except String OptimizedRoute)
    (mk_final_result : JVal → JVal → JVal)
    (now_completed now_failed : String)
    (ts0 : TaskStore) (rs0 : RouteStore) : TaskStore × RouteStore :=
  let s1 := update_task ts0 task_id processing_update
  let step1 : TaskStore × Except String JVal :=
    if enable_scenario then
      match info_agent s1 with
      | (s2, .error m) => (s2, .error m)
      | (s2, .ok info) => (update_task s2 task_id (info_complete_update info), .ok info)
    else
      (update_task s1 task_id info_skipped_update, .ok empty_info)
  match step1 with
  | (s3, .error m) => (update_task s3 task_id (failed_update m now_failed), rs0)
  | (s3, .ok info) =>
    let s4 := update_task s3 task_id start_route_update
    match route_agent info s4 with
    | (s5, .error m) => (update_task s5 task_id (failed_update m now_failed), rs0)
    | (s5, .ok (route_result, optimized)) =>
      let rs1 := optimized.foldl (fun acc j =>
        match route_from_dict j with
        | .ok r => store_route acc r.id r
        | .error _ => acc) rs0
      let s6 := update_task s5 task_id
        (completed_update (mk_final_result info route_result) now_completed)
      (s6, rs1)

/-! ## Haversine distance and waypoints
(src/backend/tools/route_planning_tools.py, calculate_route_distance and
generate_route_waypoints).  These use math.sin, math.asin and math.sqrt,
so they are modelled over the real numbers. -/

/-- The value returned by calculate_route_distance (the echoed coordinate
block is omitted). -/
structure DistanceResult where
  distance_km : ℝ
  distance_miles : ℝ
  optimal_transport_mode : String
  is_long_haul : Bool

/-- One waypoint dict of generate_route_waypoints. -/
structure Waypoint where
  location : JDict
  order : ℕ
  estimated_arrival : Option String
  waypoint_type : String

/-- The value returned by generate_route_waypoints (route_summary is
flattened into the two name fields; its mode and stops entries repeat other
fields). -/
structure WaypointResult where
  route_waypoints : List Waypoint
  total_waypoints : ℕ
  estimated_duration_days : ℤ
  transport_mode : String
  total_distance_km : ℝ
  route_type : String
  intermediate_stops : ℕ
  origin_name : JVal
  destination_name : JVal

/-- The first intermediate port hub (the Suez entry of the source list is
sliced away by the [:1] take). -/
def dubai_port : JDict :=
  [("id", .str "HUB_PORT"), ("name", .str "Dubai Port Hub"),
   ("lat", .num (252769/10000)), ("lng", .num (553264/10000)),
   ("type", .str "port")]

/-- The first intermediate airport hub (the Frankfurt entry is sliced away
by the [:1] take). -/
def dubai_airport : JDict :=
  [("id", .str "HUB_AIR"), ("name", .str "Dubai International Hub"),
   ("lat", .num (252532/10000)), ("lng", .num (553657/10000)),
   ("type", .str "airport")]

/-- True when the value stored under k, if any, is a number: the situation
in which the Python arithmetic on origin.get("lat", 0) cannot raise. -/
def num_or_missing (d : JDict) (k : String) : Bool :=
  match dictGet d k with
  | none => true
  | some (.num _) => true
  | some _ => false

/-- A location dict whose lat and lng entries, when present, are numbers. -/
def lat_lng_clean (d : JDict) : Bool :=
  num_or_missing d "lat" && num_or_missing d "lng"

noncomputable section RealModel
open scoped Classical

/-- math.radians. -/
def radians (deg : ℝ) : ℝ := deg * (Real.pi / 180)

/-- calculate_route_distance(origin_lat, origin_lng, dest_lat, dest_lng):
the Haversine formula with Earth radius 6371 km, distance rounded to two
decimals in the returned dict, transport mode chosen from the unrounded
distance. -/
def calculate_route_distance (origin_lat origin_lng dest_lat dest_lng : ℝ) :
    DistanceResult :=
  let lat1 := radians origin_lat
  let lng1 := radians origin_lng
  let lat2 := radians dest_lat
  let lng2 := radians dest_lng
  let dlat := lat2 - lat1
  let dlng := lng2 - lng1
  let a := Real.sin (dlat / 2) ^ 2 +
    Real.cos lat1 * Real.cos lat2 * Real.sin (dlng / 2) ^ 2
  let c := 2 * Real.arcsin (Real.sqrt a)
  let distance_km := c * 6371
  { distance_km := pyRound2 distance_km
    distance_miles := pyRound2 (distance_km * (621371/1000000))
    optimal_transport_mode :=
      if distance_km < 500 then "land"
      else if distance_km < 2000 then "air"
      else "sea"
    is_long_haul := decide (distance_km > 2000) }

/-- Python int() on a float: truncation toward zero. -/
def py_int (x : ℝ) : ℤ := if 0 ≤ x then ⌊x⌋ else ⌈x⌉

/-- generate_route_waypoints(origin_location, destination_location,
transport_mode), after the json.loads guard: both locations are dicts,
coordinates default to 0.  Long-haul sea and air routes get the single
intermediate hub of the sliced hub lists; every route ends with the
destination at order len+1. -/
def generate_route_waypoints (origin destination : JDict)
    (transport_mode : String) : WaypointResult :=
  let origin_lat : ℚ := getNumD origin "lat" 0
  let origin_lng : ℚ := getNumD origin "lng" 0
  let dest_lat : ℚ := getNumD destination "lat" 0
  let dest_lng : ℚ := getNumD destination "lng" 0
  let distance := (calculate_route_distance (origin_lat : ℝ) (origin_lng : ℝ)
    (dest_lat : ℝ) (dest_lng : ℝ)).distance_km
  let waypoints : List Waypoint :=
    if 2000 < distance then
      if transport_mode = "sea" then
        [⟨origin, 1, none, "origin"⟩, ⟨dubai_port, 2, some "Day 2", "intermediate_port"⟩]
      else if transport_mode = "air" then
        [⟨origin, 1, none, "origin"⟩, ⟨dubai_airport, 2, some "Day 1", "intermediate_hub"⟩]
      else [⟨origin, 1, none, "origin"⟩]
    else [⟨origin, 1, none, "origin"⟩]
  let final_order := waypoints.length + 1
  let all_waypoints := waypoints ++
    [⟨destination, final_order,
      some (if transport_mode = "sea" then "Day 3"
            else if transport_mode = "air" then "Day 2" else "Day 4"),
      "destination"⟩]
  let factor : ℝ :=
    if transport_mode = "air" then 1/10
    else if transport_mode = "sea" then 1
    else if transport_mode = "land" then 1/2
    else if transport_mode = "rail" then 3/10
    else 1/2
  { route_waypoints := all_waypoints
    total_waypoints := all_waypoints.length
    estimated_duration_days := max 1 (py_int (distance * factor / 500))
    transport_mode := transport_mode
    total_distance_km := distance
    route_type := if 2000 < distance then "long_haul" else "regional"
    intermediate_stops := all_waypoints.length - 2
    origin_name := (dictGet origin "name").getD (.str "Unknown")
    destination_name := (dictGet destination "name").getD (.str "Unknown") }

end RealModel

/-! ## Hypothesis shapes for the claims about optimize_route_selection -/

/-- Every element of the candidate list is a dict. -/
def all_dicts (rs : List JElem) : Bool :=
  rs.all (fun e => match e with | .dict _ => true | .nondict _ => false)

/-- No element of the candidate list is a dict. -/
def no_dicts (rs : List JElem) : Bool :=
  rs.all (fun e => match e with | .dict _ => false | .nondict _ => true)

/-- Every element is a dict carrying a numeric value under k. -/
def all_have_num_key (rs : List JElem) (k : String) : Bool :=
  rs.all (fun e =>
    match e with
    | .dict d => match dictGet d k with | some (.num _) => true | _ => false
    | .nondict _ => false)

/-- Every dict element lacks the key k. -/
def all_lack_key (rs : List JElem) (k : String) : Bool :=
  rs.all (fun e =>
    match e with
    | .dict d => (dictGet d k).isNone
    | .nondict _ => true)

/-- A candidate dict on which the Python scoring arithmetic cannot raise:
numeric total_cost and risk_score when present, and a transport_mode value
that is not of an opaque shape (nested lists and dicts are unhashable, so
Python could not look them up in the factor tables). -/
def route_clean (d : JDict) : Bool :=
  num_or_missing d "total_cost" && num_or_missing d "risk_score" &&
  (match dictGet d "transport_mode" with | some (.other _) => false | _ => true)

/-- route_clean for every dict element of the list. -/
def all_routes_clean (rs : List JElem) : Bool :=
  rs.all (fun e => match e with | .dict d => route_clean d | .nondict _ => true)

/-! # Theorems -/

/-! ## Rounding lemmas -/

theorem floor_le_roundHalfEven {α : Type} [LinearOrderedField α] [FloorRing α]
    (x : α) : ⌊x⌋ ≤ roundHalfEven x := by
  unfold roundHalfEven
  split_ifs <;> omega

theorem roundHalfEven_le_floor_add_one {α : Type} [LinearOrderedField α]
    [FloorRing α] (x : α) : roundHalfEven x ≤ ⌊x⌋ + 1 := by
  unfold roundHalfEven
  split_ifs <;> omega

theorem roundHalfEven_mono {α : Type} [LinearOrderedField α] [FloorRing α]
    {x y : α} (h : x ≤ y) : roundHalfEven x ≤ roundHalfEven y := by
  have hf : ⌊x⌋ ≤ ⌊y⌋ := Int.floor_mono h
  rcases eq_or_lt_of_le hf with heq | hlt
  · unfold roundHalfEven
    rw [← heq]
    have hr : x - (⌊x⌋ : α) ≤ y - (⌊x⌋ : α) := by linarith
    split_ifs <;> first | omega | linarith
  · calc roundHalfEven x ≤ ⌊x⌋ + 1 := roundHalfEven_le_floor_add_one x
      _ ≤ ⌊y⌋ := by omega
      _ ≤ roundHalfEven y := floor_le_roundHalfEven y

theorem pyRound2_mono {α : Type} [LinearOrderedField α] [FloorRing α]
    {x y : α} (h : x ≤ y) : pyRound2 x ≤ pyRound2 y := by
  unfold pyRound2
  have h100 : x * 100 ≤ y * 100 := by linarith
  have := roundHalfEven_mono h100
  have hc : ((roundHalfEven (x * 100) : ℤ) : α) ≤ ((roundHalfEven (y * 100) : ℤ) : α) :=
    Int.cast_le.mpr this
  exact div_le_div_of_nonneg_right hc (by norm_num)

theorem roundHalfEven_intCast {α : Type} [LinearOrderedField α] [FloorRing α]
    (n : ℤ) : roundHalfEven ((n : ℤ) : α) = n := by
  unfold roundHalfEven
  rw [Int.floor_intCast]
  simp

theorem pyRound2_eq_of_mul_eq {α : Type} [LinearOrderedField α] [FloorRing α]
    (x : α) (n : ℤ) (h : x * 100 = (n : α)) : pyRound2 x = (n : α) / 100 := by
  unfold pyRound2
  rw [h, roundHalfEven_intCast]

theorem pyRound3_eq_of_mul_eq {α : Type} [LinearOrderedField α] [FloorRing α]
    (x : α) (n : ℤ) (h : x * 1000 = (n : α)) : pyRound3 x = (n : α) / 1000 := by
  unfold pyRound3
  rw [h, roundHalfEven_intCast]

/-! ## C1: cost estimator monotonicity -/

theorem cost_per_km_pos (mode : String) : 0 < cost_per_km mode := by
  unfold cost_per_km
  split_ifs <;> norm_num

theorem volume_discount_nonneg (d : ℚ) (q : ℤ) : 0 ≤ volume_discount d q := by
  unfold volume_discount
  split_ifs <;> norm_num

theorem volume_discount_le_one (d : ℚ) (q : ℤ) : volume_discount d q ≤ 1 := by
  unfold volume_discount
  split_ifs <;> norm_num

theorem estimate_total_cost_eq (d : ℚ) (mode : String) (q : ℤ) (risk : ℚ) :
    (estimate_shipping_costs d mode q risk).total_cost =
      pyRound2 (d * cost_per_km mode * (q : ℚ) * (1/100) *
        (1 - volume_discount d q) * risk + handling_fee mode) := rfl

/-- C1 (amended): with the transport mode and the risk multiplier fixed (the
multiplier non-negative, as the risk model produces), total_cost is
monotonically non-decreasing in distance with the quantity fixed, and in
quantity with the distance fixed, whenever the two inputs fall in the same
volume-discount tier.  Crossing a tier boundary can lower the cost, which is
what estimate_shipping_costs_not_mono exhibits. -/
theorem estimate_shipping_costs_total_cost_mono :
    (∀ (mode : String) (risk : ℚ) (q : ℤ) (d₁ d₂ : ℚ),
      0 ≤ risk → 0 < q → d₁ ≤ d₂ →
      volume_discount d₁ q = volume_discount d₂ q →
      (estimate_shipping_costs d₁ mode q risk).total_cost ≤
        (estimate_shipping_costs d₂ mode q risk).total_cost) ∧
    (∀ (mode : String) (risk : ℚ) (d : ℚ) (q₁ q₂ : ℤ),
      0 ≤ risk → 0 ≤ d → q₁ ≤ q₂ →
      volume_discount d q₁ = volume_discount d q₂ →
      (estimate_shipping_costs d mode q₁ risk).total_cost ≤
        (estimate_shipping_costs d mode q₂ risk).total_cost) := by
  constructor
  · intro mode risk q d₁ d₂ hrisk hq hdd htier
    rw [estimate_total_cost_eq, estimate_total_cost_eq, ← htier]
    apply pyRound2_mono
    have hc := cost_per_km_pos mode
    have hq' : (0:ℚ) < (q:ℚ) := by exact_mod_cast hq
    have h1vd : 0 ≤ 1 - volume_discount d₁ q := by
      have := volume_discount_le_one d₁ q; linarith
    have key : d₁ * cost_per_km mode * (q:ℚ) * (1/100) *
        (1 - volume_discount d₁ q) * risk ≤
        d₂ * cost_per_km mode * (q:ℚ) * (1/100) *
        (1 - volume_discount d₁ q) * risk := by
      apply mul_le_mul_of_nonneg_right _ hrisk
      apply mul_le_mul_of_nonneg_right _ h1vd
      apply mul_le_mul_of_nonneg_right _ (by norm_num)
      apply mul_le_mul_of_nonneg_right _ hq'.le
      exact mul_le_mul_of_nonneg_right hdd hc.le
    linarith
  · intro mode risk d q₁ q₂ hrisk hd hqq htier
    rw [estimate_total_cost_eq, estimate_total_cost_eq, ← htier]
    apply pyRound2_mono
    have hc := cost_per_km_pos mode
    have h1vd : 0 ≤ 1 - volume_discount d q₁ := by
      have := volume_discount_le_one d q₁; linarith
    have hqc : ((q₁:ℤ):ℚ) ≤ ((q₂:ℤ):ℚ) := by exact_mod_cast hqq
    have key : d * cost_per_km mode * (q₁:ℚ) * (1/100) *
        (1 - volume_discount d q₁) * risk ≤
        d * cost_per_km mode * (q₂:ℚ) * (1/100) *
        (1 - volume_discount d q₁) * risk := by
      apply mul_le_mul_of_nonneg_right _ hrisk
      apply mul_le_mul_of_nonneg_right _ h1vd
      apply mul_le_mul_of_nonneg_right _ (by norm_num)
      exact mul_le_mul_of_nonneg_left hqc (mul_nonneg hd hc.le)
    linarith

/-- C1 witness: the monotonicity theorem applied on concrete inputs inside
one discount tier. -/
theorem estimate_shipping_costs_total_cost_mono_witness :
    ((0:ℚ) ≤ 1 ∧ (0:ℤ) < 50 ∧ (100:ℚ) ≤ 200 ∧
      volume_discount 100 50 = volume_discount 200 50 ∧
      (estimate_shipping_costs 100 "air" 50 1).total_cost ≤
        (estimate_shipping_costs 200 "air" 50 1).total_cost) :=
  ⟨by norm_num, by norm_num, by norm_num, by decide,
    estimate_shipping_costs_total_cost_mono.1 "air" 1 50 100 200
      (by norm_num) (by norm_num) (by norm_num) (by decide)⟩

/-- C1 counterexample: with mode land and risk multiplier 1, raising the
distance from 2000 to 2001 km at quantity 600, or the quantity from 500 to
501 at distance 3000 km, lowers total_cost, because the 10 percent discount
tier is entered; so the claimed unconditional monotonicity in distance and
in quantity is false. -/
theorem estimate_shipping_costs_not_mono :
    ((2000:ℚ) ≤ 2001 ∧ (0:ℤ) < 600 ∧
      (estimate_shipping_costs 2001 "land" 600 1).total_cost <
        (estimate_shipping_costs 2000 "land" 600 1).total_cost) ∧
    ((500:ℤ) ≤ 501 ∧ (0:ℚ) ≤ 3000 ∧
      (estimate_shipping_costs 3000 "land" 501 1).total_cost <
        (estimate_shipping_costs 3000 "land" 500 1).total_cost) := by
  have hck : cost_per_km "land" = 6/5 := by
    unfold cost_per_km
    rw [show py_lower "land" = "land" from by decide]
    rw [if_neg (by decide), if_neg (by decide), if_pos rfl]
  have hhf : handling_fee "land" = 200 := by
    unfold handling_fee
    rw [show py_lower "land" = "land" from by decide]
    rw [if_neg (by decide), if_neg (by decide), if_pos rfl]
  have e1 : (estimate_shipping_costs 2001 "land" 600 1).total_cost = 1316648 / 100 := by
    rw [estimate_total_cost_eq, hck, hhf,
      show volume_discount 2001 600 = 10/100 from by norm_num [volume_discount],
      pyRound2_eq_of_mul_eq _ 1316648 (by push_cast; norm_num)]
    norm_num
  have e2 : (estimate_shipping_costs 2000 "land" 600 1).total_cost = 1388000 / 100 := by
    rw [estimate_total_cost_eq, hck, hhf,
      show volume_discount 2000 600 = 5/100 from by norm_num [volume_discount],
      pyRound2_eq_of_mul_eq _ 1388000 (by push_cast; norm_num)]
    norm_num
  have e3 : (estimate_shipping_costs 3000 "land" 501 1).total_cost = 1643240 / 100 := by
    rw [estimate_total_cost_eq, hck, hhf,
      show volume_discount 3000 501 = 10/100 from by norm_num [volume_discount],
      pyRound2_eq_of_mul_eq _ 1643240 (by push_cast; norm_num)]
    norm_num
  have e4 : (estimate_shipping_costs 3000 "land" 500 1).total_cost = 1730000 / 100 := by
    rw [estimate_total_cost_eq, hck, hhf,
      show volume_discount 3000 500 = 5/100 from by norm_num [volume_discount],
      pyRound2_eq_of_mul_eq _ 1730000 (by push_cast; norm_num)]
    norm_num
  refine ⟨⟨by norm_num, by norm_num, ?_⟩, ⟨by norm_num, by norm_num, ?_⟩⟩
  · rw [e1, e2]; norm_num
  · rw [e3, e4]; norm_num

/-! ## C2: the loop completion predicate -/

/-- C2 (amended): the finalization decision of the route-planning loop is
the disjunction of three counter tests: candidates at least forecasts, or at
least one optimized route, or at least three candidates.  It is not the
single counter test of the claim, which are_routes_complete_not_only_counter
refutes. -/
theorem are_routes_complete_iff (state : RoutePlanningState) :
    are_routes_complete state = true ↔
      (state.device_forecasts.length ≤ state.candidate_routes.length ∨
       1 ≤ state.optimized_routes.length ∨
       3 ≤ state.candidate_routes.length) := by
  simp [are_routes_complete, ge_iff_le, or_assoc]

/-- C2 counterexample: a state with no candidate routes, one optimized
route and five device forecasts is declared complete although the number of
candidate routes is below the number of forecasts, refuting the claim that
completion holds exactly when candidates reach the forecast count. -/
theorem are_routes_complete_not_only_counter :
    are_routes_complete
      { candidate_routes := [],
        optimized_routes := [JVal.num 0],
        device_forecasts :=
          [JVal.num 0, JVal.num 1, JVal.num 2, JVal.num 3, JVal.num 4] } = true ∧
    ¬ ([JVal.num 0, JVal.num 1, JVal.num 2, JVal.num 3, JVal.num 4].length ≤
        ([] : List JVal).length) := by
  decide

/-! ## C6 and C7: Haversine distance -/

/-- C6: the great-circle distance from a point to itself is 0: the
Haversine intermediate a vanishes, so the arc is 2 * arcsin(sqrt 0) = 0 and
the rounded distance_km is 0. -/
theorem calculate_route_distance_self (lat lng : ℝ) :
    (calculate_route_distance lat lng lat lng).distance_km = 0 := by
  show pyRound2 (2 * Real.arcsin (Real.sqrt
    (Real.sin ((radians lat - radians lat) / 2) ^ 2 +
      Real.cos (radians lat) * Real.cos (radians lat) *
        Real.sin ((radians lng - radians lng) / 2) ^ 2)) * 6371) = 0
  rw [sub_self, sub_self, zero_div, Real.sin_zero]
  norm_num
  unfold pyRound2
  rw [show (0:ℝ) * 100 = ((0:ℤ) : ℝ) by norm_num, roundHalfEven_intCast]
  norm_num

/-- C7: the distance_km value is unchanged when the origin and destination
arguments are swapped: the squared sines of the half-differences and the
cosine product are symmetric in the two points. -/
theorem calculate_route_distance_swap (olat olng dlat dlng : ℝ) :
    (calculate_route_distance olat olng dlat dlng).distance_km =
      (calculate_route_distance dlat dlng olat olng).distance_km := by
  show pyRound2 (2 * Real.arcsin (Real.sqrt
    (Real.sin ((radians dlat - radians olat) / 2) ^ 2 +
      Real.cos (radians olat) * Real.cos (radians dlat) *
        Real.sin ((radians dlng - radians olng) / 2) ^ 2)) * 6371) =
    pyRound2 (2 * Real.arcsin (Real.sqrt
    (Real.sin ((radians olat - radians dlat) / 2) ^ 2 +
      Real.cos (radians dlat) * Real.cos (radians olat) *
        Real.sin ((radians olng - radians dlng) / 2) ^ 2)) * 6371)
  have hsin : ∀ x y : ℝ, Real.sin ((x - y) / 2) ^ 2 = Real.sin ((y - x) / 2) ^ 2 := by
    intro x y
    rw [show (x - y) / 2 = -((y - x) / 2) by ring, Real.sin_neg, neg_sq]
  rw [hsin (radians dlat) (radians olat), hsin (radians dlng) (radians olng),
    mul_comm (Real.cos (radians olat)) (Real.cos (radians dlat))]


/-! ## Association-list lemmas for the stores -/

theorem get_route_set_status_self (rs : RouteStore) (rid : String) (st : String) :
    get_route (set_route_status rs rid st) rid =
      (get_route rs rid).map (fun r => { r with status := st }) := by
  induction rs with
  | nil => rfl
  | cons p l ih =>
    by_cases hp : p.1 = rid
    · simp only [set_route_status, List.map_cons,
        if_pos (by simpa using hp : (p.1 == rid) = true)]
      simp only [get_route, List.find?_cons,
        show ((p.1, { p.2 with status := st }).1 == rid) = true by simpa using hp,
        show (p.1 == rid) = true by simpa using hp]
      rfl
    · simp only [set_route_status, List.map_cons,
        if_neg (by simpa using hp : ¬ (p.1 == rid) = true)]
      simp only [get_route, List.find?_cons,
        show (p.1 == rid) = false by simpa using hp]
      simp only [get_route, set_route_status] at ih
      exact ih

theorem get_route_set_status_ne (rs : RouteStore) (rid rid2 : String)
    (st : String) (h : rid2 ≠ rid) :
    get_route (set_route_status rs rid st) rid2 = get_route rs rid2 := by
  induction rs with
  | nil => rfl
  | cons p l ih =>
    by_cases hp : p.1 = rid
    · have h2 : p.1 ≠ rid2 := by rw [hp]; exact fun hh => h hh.symm
      simp only [set_route_status, List.map_cons,
        if_pos (by simpa using hp : (p.1 == rid) = true)]
      simp only [get_route, List.find?_cons,
        show ((p.1, { p.2 with status := st }).1 == rid2) = false by simpa using h2,
        show (p.1 == rid2) = false by simpa using h2]
      simp only [get_route, set_route_status] at ih
      exact ih
    · simp only [set_route_status, List.map_cons,
        if_neg (by simpa using hp : ¬ (p.1 == rid) = true)]
      by_cases hq : p.1 = rid2
      · simp only [get_route, List.find?_cons,
          show (p.1 == rid2) = true by simpa using hq]
      · simp only [get_route, List.find?_cons,
          show (p.1 == rid2) = false by simpa using hq]
        simp only [get_route, set_route_status] at ih
        exact ih

/-! ## C8: the approve endpoint -/

/-- C8: for a stored route the approve endpoint rewrites exactly that
route's status field to approved (approved=true) or rejected
(approved=false), leaving every other field of that route, every other
route, and the task and upload stores untouched; for an unknown id it
returns 404 and leaves all storage unchanged. -/
theorem approve_route_endpoint_spec (st : AppStorage) (rid : String)
    (approved : Bool) (comments : Option String) :
    (∀ r, get_route st.routes rid = some r →
      approve_route_endpoint st rid approved comments =
        ({ st with routes := set_route_status st.routes rid (approval_status approved) },
         .ok ⟨rid, approval_status approved, comments⟩) ∧
      get_route (set_route_status st.routes rid (approval_status approved)) rid =
        some { r with status := approval_status approved } ∧
      (∀ rid2, rid2 ≠ rid →
        get_route (set_route_status st.routes rid (approval_status approved)) rid2 =
          get_route st.routes rid2)) ∧
    (get_route st.routes rid = none →
      approve_route_endpoint st rid approved comments = (st, .error 404)) := by
  constructor
  · intro r hr
    have hfind : (st.routes.find? (fun p => p.1 == rid)).isSome := by
      unfold get_route at hr
      cases hfd : st.routes.find? (fun p => p.1 == rid) with
      | none => rw [hfd] at hr; simp at hr
      | some p => simp
    refine ⟨?_, ?_, ?_⟩
    · unfold approve_route_endpoint
      rw [hr]
      cases approved with
      | true =>
        simp only [if_true]
        unfold approve_route_store
        rw [if_pos hfind]
        rfl
      | false =>
        simp only [Bool.false_eq_true, if_false]
        rfl
    · rw [get_route_set_status_self, hr]
      rfl
    · intro rid2 h2
      exact get_route_set_status_ne _ _ _ _ h2
  · intro hr
    unfold approve_route_endpoint
    rw [hr]

/-! ## Dictionary update lemmas -/

theorem find_set_present (d : JDict) (k : String) (v : JVal) :
    (d.find? (fun p => p.1 == k)).isSome = true →
    dictGet (d.map (fun p => if p.1 == k then (p.1, v) else p)) k = some v := by
  induction d with
  | nil => intro h; simp at h
  | cons p l ih =>
    intro h
    by_cases hq : p.1 = k
    · simp only [List.map_cons, if_pos (by simpa using hq : (p.1 == k) = true)]
      simp only [dictGet, List.find?_cons,
        show ((p.1, v).1 == k) = true by simpa using hq]
      rfl
    · have h2 : (p.1 == k) = false := by simpa using hq
      have h3 : (l.find? (fun p => p.1 == k)).isSome = true := by
        simpa [List.find?_cons, h2] using h
      simp only [List.map_cons, if_neg (by simpa using hq : ¬ (p.1 == k) = true)]
      simp only [dictGet, List.find?_cons, h2]
      exact ih h3

theorem find_append_single (d : JDict) (k : String) (v : JVal) :
    d.find? (fun p => p.1 == k) = none →
    dictGet (d ++ [(k, v)]) k = some v := by
  induction d with
  | nil =>
    intro h
    simp [dictGet, List.find?_cons]
  | cons p l ih =>
    intro h
    cases hb : (p.1 == k) with
    | true => simp [List.find?_cons, hb] at h
    | false =>
      have h3 : l.find? (fun p => p.1 == k) = none := by
        simpa [List.find?_cons, hb] using h
      simp only [List.cons_append, dictGet, List.find?_cons, hb]
      exact ih h3

theorem dictGet_dictSet_self (d : JDict) (k : String) (v : JVal) :
    dictGet (dictSet d k v) k = some v := by
  unfold dictSet
  by_cases hp : (d.find? (fun p => p.1 == k)).isSome = true
  · rw [if_pos hp]
    exact find_set_present d k v hp
  · rw [if_neg hp]
    refine find_append_single d k v ?_
    cases hfd : d.find? (fun p => p.1 == k) with
    | none => rfl
    | some q => exact absurd (by simp [hfd]) hp

theorem find_set_other (d : JDict) (k k2 : String) (v : JVal) (h : k2 ≠ k) :
    dictGet (d.map (fun p => if p.1 == k then (p.1, v) else p)) k2 = dictGet d k2 := by
  induction d with
  | nil => rfl
  | cons p l ih =>
    by_cases hq : p.1 = k
    · have h2 : p.1 ≠ k2 := by rw [hq]; exact fun hh => h hh.symm
      simp only [List.map_cons, if_pos (by simpa using hq : (p.1 == k) = true)]
      simp only [dictGet, List.find?_cons,
        show ((p.1, v).1 == k2) = false by simpa using h2,
        show (p.1 == k2) = false by simpa using h2]
      exact ih
    · simp only [List.map_cons, if_neg (by simpa using hq : ¬ (p.1 == k) = true)]
      cases hb : (p.1 == k2) with
      | true =>
        simp only [dictGet, List.find?_cons, hb]
      | false =>
        simp only [dictGet, List.find?_cons, hb]
        exact ih

theorem find_append_other (d : JDict) (k k2 : String) (v : JVal) (h : k2 ≠ k) :
    dictGet (d ++ [(k, v)]) k2 = dictGet d k2 := by
  induction d with
  | nil =>
    simp [dictGet, List.find?_cons,
      show (k == k2) = false by simpa using fun hh => h hh.symm]
  | cons p l ih =>
    cases hb : (p.1 == k2) with
    | true =>
      simp only [List.cons_append, dictGet, List.find?_cons, hb]
    | false =>
      simp only [List.cons_append, dictGet, List.find?_cons, hb]
      exact ih

theorem dictGet_dictSet_ne (d : JDict) (k k2 : String) (v : JVal) (h : k2 ≠ k) :
    dictGet (dictSet d k v) k2 = dictGet d k2 := by
  unfold dictSet
  by_cases hp : (d.find? (fun p => p.1 == k)).isSome = true
  · rw [if_pos hp]
    exact find_set_other d k k2 v h
  · rw [if_neg hp]
    exact find_append_other d k k2 v h

theorem get_task_map_update (ts : TaskStore) (tid : String) (u : JDict) :
    get_task (ts.map (fun p => if p.1 == tid then (p.1, dictUpdate p.2 u) else p)) tid =
      (get_task ts tid).map (fun d => dictUpdate d u) := by
  induction ts with
  | nil => rfl
  | cons p l ih =>
    by_cases hq : p.1 = tid
    · simp only [List.map_cons, if_pos (by simpa using hq : (p.1 == tid) = true)]
      simp only [get_task, List.find?_cons,
        show ((p.1, dictUpdate p.2 u).1 == tid) = true by simpa using hq,
        show (p.1 == tid) = true by simpa using hq]
      rfl
    · have h2 : (p.1 == tid) = false := by simpa using hq
      simp only [List.map_cons, if_neg (by simpa using hq : ¬ (p.1 == tid) = true)]
      simp only [get_task, List.find?_cons, h2]
      simp only [get_task] at ih
      exact ih

theorem get_task_update_self (ts : TaskStore) (tid : String) (u : JDict) :
    get_task (update_task ts tid u) tid =
      (get_task ts tid).map (fun d => dictUpdate d u) := by
  unfold update_task
  by_cases hp : (ts.find? (fun p => p.1 == tid)).isSome = true
  · rw [if_pos hp]
    exact get_task_map_update ts tid u
  · rw [if_neg hp]
    cases hfd : ts.find? (fun p => p.1 == tid) with
    | none => simp [get_task, hfd]
    | some q => exact absurd (by simp [hfd]) hp

/-- The merge performed by the top-level exception handler: status and
error take the failure values, and every key the handler does not write is
untouched. -/
theorem dictUpdate_failed_update (r : JDict) (m now_failed : String) :
    dictGet (dictUpdate r (failed_update m now_failed)) "status" = some (.str "failed") ∧
    dictGet (dictUpdate r (failed_update m now_failed)) "error" = some (.str m) ∧
    (∀ k, k ∉ failed_update_keys →
      dictGet (dictUpdate r (failed_update m now_failed)) k = dictGet r k) := by
  have hexp : dictUpdate r (failed_update m now_failed) =
      dictSet (dictSet (dictSet (dictSet (dictSet r "status" (.str "failed"))
        "progress" (.num 0)) "current_step" (.str "error")) "error" (.str m))
        "failed_at" (.str now_failed) := rfl
  rw [hexp]
  refine ⟨?_, ?_, ?_⟩
  · rw [dictGet_dictSet_ne _ _ _ _ (by decide),
      dictGet_dictSet_ne _ _ _ _ (by decide),
      dictGet_dictSet_ne _ _ _ _ (by decide),
      dictGet_dictSet_ne _ _ _ _ (by decide),
      dictGet_dictSet_self]
  · rw [dictGet_dictSet_ne _ _ _ _ (by decide), dictGet_dictSet_self]
  · intro k hk
    simp only [failed_update_keys, List.mem_cons, List.mem_singleton, not_or] at hk
    obtain ⟨h1, h2, h3, h4, h5, -⟩ := hk
    rw [dictGet_dictSet_ne _ _ _ _ h5, dictGet_dictSet_ne _ _ _ _ h4,
      dictGet_dictSet_ne _ _ _ _ h3, dictGet_dictSet_ne _ _ _ _ h2,
      dictGet_dictSet_ne _ _ _ _ h1]

/-- The merge performed on the success path: status becomes completed and
every key the completion update does not write (the error field among them)
is untouched. -/
theorem dictUpdate_completed_update (r : JDict) (res : JVal)
    (now_completed : String) :
    dictGet (dictUpdate r (completed_update res now_completed)) "status" =
      some (.str "completed") ∧
    (∀ k, k ∉ completed_update_keys →
      dictGet (dictUpdate r (completed_update res now_completed)) k =
        dictGet r k) := by
  have hexp : dictUpdate r (completed_update res now_completed) =
      dictSet (dictSet (dictSet (dictSet (dictSet r "status" (.str "completed"))
        "progress" (.num 100)) "current_step" (.str "analysis_complete"))
        "result" res) "completed_at" (.str now_completed) := rfl
  rw [hexp]
  refine ⟨?_, ?_⟩
  · rw [dictGet_dictSet_ne _ _ _ _ (by decide),
      dictGet_dictSet_ne _ _ _ _ (by decide),
      dictGet_dictSet_ne _ _ _ _ (by decide),
      dictGet_dictSet_ne _ _ _ _ (by decide),
      dictGet_dictSet_self]
  · intro k hk
    simp only [completed_update_keys, List.mem_cons, List.mem_singleton,
      not_or] at hk
    obtain ⟨h1, h2, h3, h4, h5, -⟩ := hk
    rw [dictGet_dictSet_ne _ _ _ _ h5, dictGet_dictSet_ne _ _ _ _ h4,
      dictGet_dictSet_ne _ _ _ _ h3, dictGet_dictSet_ne _ _ _ _ h2,
      dictGet_dictSet_ne _ _ _ _ h1]

/-! ## C3: background-task failure handling -/

/-- C3 (amended): an exception raised by either agent call reaches the
single top-level except handler: the resulting state is exactly the state
at the moment of the raise with one failed_update merged into the task
record (and the route store untouched by the failed run); the merged record
has status failed, the stringified message in its error field, and every
key outside the five keys the handler writes keeps the value it had when
the exception occurred, so mutations that landed earlier are not rolled
back.  Exceptions raised while storing individual routes
(OptimizedRoute.from_dict and store_route) are instead caught by the inner
per-route except: the failing routes are skipped and the task still
completes with status completed, never touching the error field — which is
what process_supply_chain_inner_catch exhibits against the original
every-exception claim. -/
theorem process_supply_chain_failure_spec (tid : String)
    (info_agent : TaskStore → TaskStore × Except String JVal)
    (route_agent : JVal → TaskStore → TaskStore × Except String (JVal × List JVal))
    (route_from_dict : JVal → Except String OptimizedRoute)
    (mk_final_result : JVal → JVal → JVal)
    (now_completed now_failed : String) (ts0 : TaskStore) (rs0 : RouteStore) :
    (∀ s2 m, info_agent (update_task ts0 tid processing_update) = (s2, .error m) →
      process_supply_chain_analysis tid true info_agent route_agent
          route_from_dict mk_final_result now_completed now_failed ts0 rs0 =
        (update_task s2 tid (failed_update m now_failed), rs0)) ∧
    (∀ s2 info s5 m,
      info_agent (update_task ts0 tid processing_update) = (s2, .ok info) →
      route_agent info (update_task (update_task s2 tid (info_complete_update info))
          tid start_route_update) = (s5, .error m) →
      process_supply_chain_analysis tid true info_agent route_agent
          route_from_dict mk_final_result now_completed now_failed ts0 rs0 =
        (update_task s5 tid (failed_update m now_failed), rs0)) ∧
    (∀ s5 m,
      route_agent empty_info (update_task (update_task
          (update_task ts0 tid processing_update) tid info_skipped_update)
          tid start_route_update) = (s5, .error m) →
      process_supply_chain_analysis tid false info_agent route_agent
          route_from_dict mk_final_result now_completed now_failed ts0 rs0 =
        (update_task s5 tid (failed_update m now_failed), rs0)) ∧
    (∀ s m r, get_task s tid = some r →
      get_task (update_task s tid (failed_update m now_failed)) tid =
        some (dictUpdate r (failed_update m now_failed)) ∧
      dictGet (dictUpdate r (failed_update m now_failed)) "status" =
        some (.str "failed") ∧
      dictGet (dictUpdate r (failed_update m now_failed)) "error" =
        some (.str m) ∧
      (∀ k, k ∉ failed_update_keys →
        dictGet (dictUpdate r (failed_update m now_failed)) k = dictGet r k)) ∧
    (∀ s2 info s5 route_result optimized,
      info_agent (update_task ts0 tid processing_update) = (s2, .ok info) →
      route_agent info (update_task (update_task s2 tid (info_complete_update info))
          tid start_route_update) = (s5, .ok (route_result, optimized)) →
      process_supply_chain_analysis tid true info_agent route_agent
          route_from_dict mk_final_result now_completed now_failed ts0 rs0 =
        (update_task s5 tid
          (completed_update (mk_final_result info route_result) now_completed),
         optimized.foldl (fun acc j =>
           match route_from_dict j with
           | .ok r => store_route acc r.id r
           | .error _ => acc) rs0)) ∧
    (∀ s (res : JVal) r, get_task s tid = some r →
      get_task (update_task s tid (completed_update res now_completed)) tid =
        some (dictUpdate r (completed_update res now_completed)) ∧
      dictGet (dictUpdate r (completed_update res now_completed)) "status" =
        some (.str "completed") ∧
      (∀ k, k ∉ completed_update_keys →
        dictGet (dictUpdate r (completed_update res now_completed)) k =
          dictGet r k)) := by
  refine ⟨?_, ?_, ?_, ?_, ?_, ?_⟩
  · intro s2 m hinfo
    simp only [process_supply_chain_analysis, if_true, hinfo]
  · intro s2 info s5 m hinfo hroute
    simp only [process_supply_chain_analysis, if_true, hinfo, hroute]
  · intro s5 m hroute
    simp only [process_supply_chain_analysis, Bool.false_eq_true, if_false, hroute]
  · intro s m r hr
    have h1 := dictUpdate_failed_update r m now_failed
    refine ⟨?_, h1.1, h1.2.1, h1.2.2⟩
    rw [get_task_update_self, hr]
    rfl
  · intro s2 info s5 route_result optimized hinfo hroute
    simp only [process_supply_chain_analysis, if_true, hinfo, hroute]
  · intro s res r hr
    have h1 := dictUpdate_completed_update r res now_completed
    refine ⟨?_, h1.1, h1.2⟩
    rw [get_task_update_self, hr]
    rfl

/-- C3 witness: a concrete run in which the information agent raises with
message boom, driven through the failure theorem. -/
theorem process_supply_chain_failure_spec_witness :
    ((fun (s : TaskStore) => (s, (.error "boom" : Except String JVal)))
        (update_task [("t", [("status", .str "pending")])] "t" processing_update) =
      (update_task [("t", [("status", .str "pending")])] "t" processing_update,
        .error "boom")) ∧
    process_supply_chain_analysis "t" true
        (fun s => (s, .error "boom"))
        (fun _ s => (s, .ok (.other 1, [])))
        (fun _ => .error "x") (fun _ _ => .other 2) "C" "F"
        [("t", [("status", .str "pending")])] [] =
      (update_task (update_task [("t", [("status", .str "pending")])] "t"
          processing_update) "t" (failed_update "boom" "F"), []) :=
  ⟨rfl, (process_supply_chain_failure_spec "t"
      (fun s => (s, .error "boom"))
      (fun _ s => (s, .ok (.other 1, [])))
      (fun _ => .error "x") (fun _ _ => .other 2) "C" "F"
      [("t", [("status", .str "pending")])] []).1
    (update_task [("t", [("status", .str "pending")])] "t" processing_update)
    "boom" rfl⟩

/-- C3 counterexample: a run in which both agent calls succeed and
OptimizedRoute.from_dict raises on the single stored route (here with
message missing id).  The inner per-route except swallows that exception:
the failing route is skipped, the task record ends with status completed
and no error key at all, so the original claim — that every exception
raised during background processing marks the task failed with the message
in its error field — is false. -/
theorem process_supply_chain_inner_catch :
    process_supply_chain_analysis "t" false
        (fun s => (s, .ok (.other 1)))
        (fun _ s => (s, .ok (.other 2, [.other 3])))
        (fun _ => .error "missing id")
        (fun _ _ => .other 4) "C" "F"
        [("t", [("status", .str "pending")])] [] =
      ([("t", [("status", .str "completed"), ("progress", .num 100),
          ("current_step", .str "analysis_complete"), ("result", .other 4),
          ("completed_at", .str "C")])], []) ∧
    dictGet [("status", JVal.str "completed"), ("progress", .num 100),
        ("current_step", .str "analysis_complete"), ("result", .other 4),
        ("completed_at", .str "C")] "status" = some (.str "completed") ∧
    dictGet [("status", JVal.str "completed"), ("progress", .num 100),
        ("current_step", .str "analysis_complete"), ("result", .other 4),
        ("completed_at", .str "C")] "status" ≠ some (.str "failed") ∧
    dictGet [("status", JVal.str "completed"), ("progress", .num 100),
        ("current_step", .str "analysis_complete"), ("result", .other 4),
        ("completed_at", .str "C")] "error" = none :=
  ⟨rfl, rfl, by decide, rfl⟩

/-- C8 witness: the approve theorem applied to a one-route store. -/
theorem approve_route_endpoint_spec_witness :
    (get_route [("r1", ⟨"r1", [], 10, 5, 0, "air", "3 days", "pending_approval"⟩)]
        "r1" = some ⟨"r1", [], 10, 5, 0, "air", "3 days", "pending_approval"⟩) ∧
    approve_route_endpoint
        ⟨[], [("r1", ⟨"r1", [], 10, 5, 0, "air", "3 days", "pending_approval"⟩)], []⟩
        "r1" true none =
      (⟨[], set_route_status
          [("r1", ⟨"r1", [], 10, 5, 0, "air", "3 days", "pending_approval"⟩)]
          "r1" (approval_status true), []⟩,
       .ok ⟨"r1", approval_status true, none⟩) :=
  ⟨rfl,
    ((approve_route_endpoint_spec
        ⟨[], [("r1", ⟨"r1", [], 10, 5, 0, "air", "3 days", "pending_approval"⟩)], []⟩
        "r1" true none).1
      ⟨"r1", [], 10, 5, 0, "air", "3 days", "pending_approval"⟩ rfl).1⟩

/-! ## C10: waypoint generation invariants -/

/-- C10: for dict locations whose coordinates are numeric when present (the
inputs on which the Python arithmetic cannot raise), the waypoint list
starts with the origin at order 1 with waypoint_type origin, ends with the
destination with waypoint_type destination, the orders are the consecutive
integers 1..total_waypoints, intermediate_stops is total_waypoints minus 2,
and the estimated duration is at least one day. -/
theorem generate_route_waypoints_invariants (origin destination : JDict)
    (mode : String) (h1 : lat_lng_clean origin = true)
    (h2 : lat_lng_clean destination = true) :
    (generate_route_waypoints origin destination mode).route_waypoints.head? =
      some ⟨origin, 1, none, "origin"⟩ ∧
    ((generate_route_waypoints origin destination mode).route_waypoints.getLast?).map
        (fun w => (w.location, w.waypoint_type)) = some (destination, "destination") ∧
    (generate_route_waypoints origin destination mode).route_waypoints.map
        (fun w => w.order) =
      List.range' 1 (generate_route_waypoints origin destination mode).total_waypoints ∧
    (generate_route_waypoints origin destination mode).intermediate_stops =
      (generate_route_waypoints origin destination mode).total_waypoints - 2 ∧
    1 ≤ (generate_route_waypoints origin destination mode).estimated_duration_days := by
  simp only [generate_route_waypoints]
  split_ifs <;> refine ⟨?_, ?_, ?_, ?_, ?_⟩ <;>
    first | trivial | exact le_max_left 1 _

/-- C10 witness: the invariants at two concrete coastal locations with the
sea transport mode. -/
theorem generate_route_waypoints_invariants_witness :
    lat_lng_clean [("name", .str "New York"), ("lat", .num (407128/10000)),
      ("lng", .num (-740060/10000))] = true ∧
    lat_lng_clean [("name", .str "Singapore"), ("lat", .num (13521/10000)),
      ("lng", .num (1038198/10000))] = true ∧
    ((generate_route_waypoints
        [("name", .str "New York"), ("lat", .num (407128/10000)),
          ("lng", .num (-740060/10000))]
        [("name", .str "Singapore"), ("lat", .num (13521/10000)),
          ("lng", .num (1038198/10000))] "sea").route_waypoints.head? =
      some ⟨[("name", .str "New York"), ("lat", .num (407128/10000)),
        ("lng", .num (-740060/10000))], 1, none, "origin"⟩ ∧
     ((generate_route_waypoints
        [("name", .str "New York"), ("lat", .num (407128/10000)),
          ("lng", .num (-740060/10000))]
        [("name", .str "Singapore"), ("lat", .num (13521/10000)),
          ("lng", .num (1038198/10000))] "sea").route_waypoints.getLast?).map
        (fun w => (w.location, w.waypoint_type)) =
      some ([("name", .str "Singapore"), ("lat", .num (13521/10000)),
        ("lng", .num (1038198/10000))], "destination") ∧
     (generate_route_waypoints
        [("name", .str "New York"), ("lat", .num (407128/10000)),
          ("lng", .num (-740060/10000))]
        [("name", .str "Singapore"), ("lat", .num (13521/10000)),
          ("lng", .num (1038198/10000))] "sea").route_waypoints.map
        (fun w => w.order) =
      List.range' 1 (generate_route_waypoints
        [("name", .str "New York"), ("lat", .num (407128/10000)),
          ("lng", .num (-740060/10000))]
        [("name", .str "Singapore"), ("lat", .num (13521/10000)),
          ("lng", .num (1038198/10000))] "sea").total_waypoints ∧
     (generate_route_waypoints
        [("name", .str "New York"), ("lat", .num (407128/10000)),
          ("lng", .num (-740060/10000))]
        [("name", .str "Singapore"), ("lat", .num (13521/10000)),
          ("lng", .num (1038198/10000))] "sea").intermediate_stops =
      (generate_route_waypoints
        [("name", .str "New York"), ("lat", .num (407128/10000)),
          ("lng", .num (-740060/10000))]
        [("name", .str "Singapore"), ("lat", .num (13521/10000)),
          ("lng", .num (1038198/10000))] "sea").total_waypoints - 2 ∧
     1 ≤ (generate_route_waypoints
        [("name", .str "New York"), ("lat", .num (407128/10000)),
          ("lng", .num (-740060/10000))]
        [("name", .str "Singapore"), ("lat", .num (13521/10000)),
          ("lng", .num (1038198/10000))] "sea").estimated_duration_days) :=
  ⟨by decide, by decide,
    generate_route_waypoints_invariants
      [("name", .str "New York"), ("lat", .num (407128/10000)),
        ("lng", .num (-740060/10000))]
      [("name", .str "Singapore"), ("lat", .num (13521/10000)),
        ("lng", .num (1038198/10000))] "sea" (by decide) (by decide)⟩

/-! ## Lemmas about the scorer, the stable sort and the ranking pass -/

theorem composite_ge_trans : ∀ (a b c : ScoredRoute),
    composite_ge a b → composite_ge b c → composite_ge a c := by
  intro a b c hab hbc
  simp only [composite_ge, decide_eq_true_eq] at *
  exact le_trans hbc hab

theorem composite_ge_total : ∀ (a b : ScoredRoute),
    composite_ge a b || composite_ge b a := by
  intro a b
  simp only [composite_ge, Bool.or_eq_true, decide_eq_true_eq]
  exact le_total b.composite_score a.composite_score

theorem rank_from_filter_length (l : List ScoredRoute) :
    ∀ i, ((rank_from i l).filter (fun r => r.recommended)).length ≤ 3 - i := by
  induction l with
  | nil => intro i; simp [rank_from]
  | cons r rest ih =>
    intro i
    have hrec : (assign_rank r i).recommended = decide (i < 3) := rfl
    have hih := ih (i + 1)
    by_cases hi : i < 3
    · simp [rank_from, List.filter_cons, hrec, hi]
      omega
    · simp [rank_from, List.filter_cons, hrec, hi]
      omega

theorem mem_rank_from (l : List ScoredRoute) :
    ∀ i r, r ∈ rank_from i l → ∃ r0 ∈ l, ∃ j, r = assign_rank r0 j := by
  induction l with
  | nil => intro i r h; simp [rank_from] at h
  | cons a rest ih =>
    intro i r h
    simp only [rank_from, List.mem_cons] at h
    rcases h with h | h
    · exact ⟨a, List.mem_cons_self _ _, i, h⟩
    · obtain ⟨r0, hr0, j, hj⟩ := ih (i + 1) r h
      exact ⟨r0, List.mem_cons_of_mem _ hr0, j, hj⟩

theorem map_clear_rank_rank_from (l : List ScoredRoute)
    (h : ∀ r ∈ l, clear_rank r = r) :
    ∀ i, (rank_from i l).map clear_rank = l := by
  induction l with
  | nil => intro i; rfl
  | cons a rest ih =>
    intro i
    simp only [rank_from, List.map_cons]
    rw [show clear_rank (assign_rank a i) = clear_rank a from rfl,
      h a (List.mem_cons_self _ _),
      ih (fun r hr => h r (List.mem_cons_of_mem _ hr)) (i + 1)]

theorem mem_score_routes (rs : List JElem) (r : ScoredRoute) :
    r ∈ score_routes rs → ∃ d, JElem.dict d ∈ rs ∧ r = score_route rs d := by
  intro h
  simp only [score_routes, List.mem_filterMap] at h
  obtain ⟨e, he, hmatch⟩ := h
  cases e with
  | dict d =>
    refine ⟨d, he, ?_⟩
    simpa using hmatch.symm
  | nondict n => simp at hmatch

theorem score_routes_defaults (rs : List JElem) :
    ∀ r ∈ score_routes rs, clear_rank r = r := by
  intro r h
  obtain ⟨d, -, rfl⟩ := mem_score_routes rs r h
  rfl

theorem score_routes_ctx_length (ctx : List JElem) :
    ∀ l : List JElem, all_dicts l = true →
      (l.filterMap (fun e =>
        match e with
        | .dict d => some (score_route ctx d)
        | .nondict _ => none)).length = l.length := by
  intro l
  induction l with
  | nil => intro h; rfl
  | cons e rest ih =>
    intro h
    simp only [all_dicts, List.all_cons, Bool.and_eq_true] at h
    cases e with
    | dict d =>
      simp only [List.filterMap_cons, List.length_cons]
      rw [ih (by simpa [all_dicts] using h.2)]
    | nondict n => simp at h

theorem score_routes_length (rs : List JElem) (h : all_dicts rs = true) :
    (score_routes rs).length = rs.length :=
  score_routes_ctx_length rs rs h

theorem score_routes_ctx_nil (ctx : List JElem) :
    ∀ l : List JElem, no_dicts l = true →
      l.filterMap (fun e =>
        match e with
        | .dict d => some (score_route ctx d)
        | .nondict _ => none) = [] := by
  intro l
  induction l with
  | nil => intro h; rfl
  | cons e rest ih =>
    intro h
    simp only [no_dicts, List.all_cons, Bool.and_eq_true] at h
    cases e with
    | dict d => simp at h
    | nondict n =>
      simp only [List.filterMap_cons]
      exact ih (by simpa [no_dicts] using h.2)

theorem score_routes_nil_of_no_dicts (rs : List JElem) (h : no_dicts rs = true) :
    score_routes rs = [] :=
  score_routes_ctx_nil rs rs h

theorem sum_key_ok (k : String) :
    ∀ l : List ScoredRoute,
      (∀ r ∈ l, ∃ q, dictGet r.base k = some (.num q)) →
      ∃ s, sum_key k l = .ok s := by
  intro l
  induction l with
  | nil => intro h; exact ⟨0, rfl⟩
  | cons r rest ih =>
    intro h
    obtain ⟨q, hq⟩ := h r (List.mem_cons_self _ _)
    obtain ⟨s, hs⟩ := ih (fun r2 hr2 => h r2 (List.mem_cons_of_mem _ hr2))
    refine ⟨q + s, ?_⟩
    simp only [sum_key, hq, hs]

theorem sum_key_head_missing (k : String) (r : ScoredRoute)
    (rest : List ScoredRoute) (h : dictGet r.base k = none) :
    sum_key k (r :: rest) = .error (.keyError k) := by
  simp only [sum_key, h]

theorem optimize_body_ok (rs : List JElem) (out : OptimizationOutput)
    (h : optimize_body rs = .ok (.ok out)) :
    out.optimized_routes =
      rank_from 0 ((score_routes rs).mergeSort composite_ge) ∧
    out.recommended_routes =
      (rank_from 0 ((score_routes rs).mergeSort composite_ge)).filter
        (fun r => r.recommended) := by
  simp only [optimize_body] at h
  cases h1 : sum_key "total_cost"
      (rank_from 0 ((score_routes rs).mergeSort composite_ge)) with
  | error e => simp only [h1] at h; exact Except.noConfusion h
  | ok cs =>
    simp only [h1] at h
    by_cases h0 : (rank_from 0 ((score_routes rs).mergeSort composite_ge)).length = 0
    · simp only [if_pos h0] at h
      exact Except.noConfusion h
    · simp only [if_neg h0] at h
      cases h2 : sum_key "risk_score"
          (rank_from 0 ((score_routes rs).mergeSort composite_ge)) with
      | error e => simp only [h2] at h; exact Except.noConfusion h
      | ok rsum =>
        simp only [h2] at h
        cases h3 : best_route_id
            (rank_from 0 ((score_routes rs).mergeSort composite_ge)) with
        | error e => simp only [h3] at h; exact Except.noConfusion h
        | ok bid =>
          simp only [h3, Except.ok.injEq, OptResult.ok.injEq] at h
          subst h
          exact ⟨rfl, rfl⟩

/-! ## C4: top-3 selection, subset and stability -/

/-- C4: whenever optimize_route_selection returns a value on a non-empty
all-dict candidate list, at most 3 routes are marked recommended, every
recommended route is one of the input dicts augmented only with the score
and ranking fields (its base is an input element), and the ranking is
stable: two scored routes with equal composite score that occur in a given
order in the (input-ordered) scored list occur in the same order in the
output, read back through clear_rank which erases only the ranking
fields. -/
theorem optimize_route_selection_top3 (rs : List JElem)
    (out : OptimizationOutput) (hne : rs ≠ [])
    (hall : all_dicts rs = true)
    (hok : optimize_route_selection (some (.list rs)) = .ok (.ok out)) :
    out.recommended_routes.length ≤ 3 ∧
    (∀ r ∈ out.recommended_routes, JElem.dict r.base ∈ rs) ∧
    (∀ a b : ScoredRoute, a.composite_score = b.composite_score →
      [a, b].Sublist (score_routes rs) →
      [a, b].Sublist (out.optimized_routes.map clear_rank)) := by
  have hbody : optimize_body rs = .ok (.ok out) := by
    cases rs with
    | nil => exact absurd rfl hne
    | cons e es => simpa [optimize_route_selection] using hok
  obtain ⟨hopt, hrec⟩ := optimize_body_ok rs out hbody
  refine ⟨?_, ?_, ?_⟩
  · rw [hrec]
    have := rank_from_filter_length ((score_routes rs).mergeSort composite_ge) 0
    omega
  · intro r hr
    rw [hrec] at hr
    have hr2 : r ∈ rank_from 0 ((score_routes rs).mergeSort composite_ge) :=
      List.mem_of_mem_filter hr
    obtain ⟨r0, hr0, j, rfl⟩ := mem_rank_from _ 0 r hr2
    have hr3 : r0 ∈ score_routes rs := List.mem_mergeSort.mp hr0
    obtain ⟨d, hd, rfl⟩ := mem_score_routes rs r0 hr3
    exact hd
  · intro a b hab hsub
    rw [hopt, map_clear_rank_rank_from _
      (fun r hr => score_routes_defaults rs r (List.mem_mergeSort.mp hr)) 0]
    exact List.pair_sublist_mergeSort composite_ge_trans composite_ge_total
      (by simp [composite_ge, hab]) hsub

theorem rank_from_length : ∀ (i : ℕ) (l : List ScoredRoute),
    (rank_from i l).length = l.length := by
  intro i l
  induction l generalizing i with
  | nil => rfl
  | cons a rest ih => simp [rank_from, ih]

theorem rank_base_mem (rs : List JElem) :
    ∀ r ∈ rank_from 0 ((score_routes rs).mergeSort composite_ge),
      JElem.dict r.base ∈ rs := by
  intro r hr
  obtain ⟨r0, hr0, j, rfl⟩ := mem_rank_from _ 0 r hr
  obtain ⟨d, hd, rfl⟩ := mem_score_routes rs r0 (List.mem_mergeSort.mp hr0)
  exact hd

theorem lack_of_mem (rs : List JElem) (k : String) (d : JDict)
    (h : all_lack_key rs k = true) (hd : JElem.dict d ∈ rs) :
    dictGet d k = none := by
  simp only [all_lack_key, List.all_eq_true] at h
  have h2 := h _ hd
  simpa [Option.isNone_iff_eq_none] using h2

theorem num_of_mem (rs : List JElem) (k : String) (d : JDict)
    (h : all_have_num_key rs k = true) (hd : JElem.dict d ∈ rs) :
    ∃ q, dictGet d k = some (.num q) := by
  simp only [all_have_num_key, List.all_eq_true] at h
  have h3 : (match dictGet d k with
      | some (JVal.num _) => true
      | _ => false) = true := h _ hd
  cases hfd : dictGet d k with
  | none => rw [hfd] at h3; simp at h3
  | some v =>
    cases v with
    | num q => exact ⟨q, rfl⟩
    | str s => rw [hfd] at h3; simp at h3
    | other n => rw [hfd] at h3; simp at h3

/-! ## C9: error objects versus raised exceptions -/

/-- C9: the three guard failures (unparseable JSON, non-list document,
empty list) return an error dictionary; but a non-empty list with no dict
element reaches the division by zero in the summary averages, and a
non-empty all-dict list whose dicts lack total_cost, risk_score or id
raises the corresponding KeyError from the summary block instead of
returning. -/
theorem optimize_route_selection_errors :
    optimize_route_selection none =
      .ok (.err "Invalid JSON format for candidate routes") ∧
    (∀ n, optimize_route_selection (some (.nonlist n)) =
      .ok (.err "No candidate routes provided")) ∧
    optimize_route_selection (some (.list [])) =
      .ok (.err "No candidate routes provided") ∧
    (∀ rs, rs ≠ [] → no_dicts rs = true →
      optimize_route_selection (some (.list rs)) = .error .zeroDivisionError) ∧
    (∀ rs, rs ≠ [] → all_dicts rs = true →
      all_lack_key rs "total_cost" = true →
      optimize_route_selection (some (.list rs)) = .error (.keyError "total_cost")) ∧
    (∀ rs, rs ≠ [] → all_dicts rs = true →
      all_have_num_key rs "total_cost" = true →
      all_lack_key rs "risk_score" = true →
      optimize_route_selection (some (.list rs)) = .error (.keyError "risk_score")) ∧
    (∀ rs, rs ≠ [] → all_dicts rs = true →
      all_have_num_key rs "total_cost" = true →
      all_have_num_key rs "risk_score" = true →
      all_lack_key rs "id" = true →
      optimize_route_selection (some (.list rs)) = .error (.keyError "id")) := by
  refine ⟨rfl, fun n => rfl, rfl, ?_, ?_, ?_, ?_⟩
  · intro rs hne hnd
    cases rs with
    | nil => exact absurd rfl hne
    | cons e es =>
      show optimize_body (e :: es) = _
      simp only [optimize_body, score_routes_nil_of_no_dicts _ hnd,
        List.mergeSort_nil]
      rfl
  · intro rs hne hall hlack
    cases rs with
    | nil => exact absurd rfl hne
    | cons e es =>
      have hlen : (rank_from 0 ((score_routes (e :: es)).mergeSort composite_ge)).length =
          (e :: es).length := by
        rw [rank_from_length, List.length_mergeSort, score_routes_length _ hall]
      obtain ⟨r, rest, hcons⟩ :=
        List.exists_cons_of_ne_nil (l := rank_from 0
          ((score_routes (e :: es)).mergeSort composite_ge))
          (by intro hnil; rw [hnil] at hlen; simp at hlen)
      have hmem : r ∈ rank_from 0 ((score_routes (e :: es)).mergeSort composite_ge) := by
        rw [hcons]; exact List.mem_cons_self _ _
      have hmiss : dictGet r.base "total_cost" = none :=
        lack_of_mem _ _ _ hlack (rank_base_mem _ r hmem)
      show optimize_body (e :: es) = _
      simp only [optimize_body, hcons, sum_key_head_missing _ _ _ hmiss]
  · intro rs hne hall hnum hlack
    cases rs with
    | nil => exact absurd rfl hne
    | cons e es =>
      have hlen : (rank_from 0 ((score_routes (e :: es)).mergeSort composite_ge)).length =
          (e :: es).length := by
        rw [rank_from_length, List.length_mergeSort, score_routes_length _ hall]
      obtain ⟨s, hs⟩ := sum_key_ok "total_cost"
        (rank_from 0 ((score_routes (e :: es)).mergeSort composite_ge))
        (fun r hr => num_of_mem _ _ _ hnum (rank_base_mem _ r hr))
      obtain ⟨r, rest, hcons⟩ :=
        List.exists_cons_of_ne_nil (l := rank_from 0
          ((score_routes (e :: es)).mergeSort composite_ge))
          (by intro hnil; rw [hnil] at hlen; simp at hlen)
      have hmem : r ∈ rank_from 0 ((score_routes (e :: es)).mergeSort composite_ge) := by
        rw [hcons]; exact List.mem_cons_self _ _
      have hmiss : dictGet r.base "risk_score" = none :=
        lack_of_mem _ _ _ hlack (rank_base_mem _ r hmem)
      show optimize_body (e :: es) = _
      simp only [optimize_body, hs]
      rw [if_neg (by rw [hlen]; simp)]
      simp only [hcons, sum_key_head_missing _ _ _ hmiss]
  · intro rs hne hall hnum hnumr hlack
    cases rs with
    | nil => exact absurd rfl hne
    | cons e es =>
      have hlen : (rank_from 0 ((score_routes (e :: es)).mergeSort composite_ge)).length =
          (e :: es).length := by
        rw [rank_from_length, List.length_mergeSort, score_routes_length _ hall]
      obtain ⟨s, hs⟩ := sum_key_ok "total_cost"
        (rank_from 0 ((score_routes (e :: es)).mergeSort composite_ge))
        (fun r hr => num_of_mem _ _ _ hnum (rank_base_mem _ r hr))
      obtain ⟨s2, hs2⟩ := sum_key_ok "risk_score"
        (rank_from 0 ((score_routes (e :: es)).mergeSort composite_ge))
        (fun r hr => num_of_mem _ _ _ hnumr (rank_base_mem _ r hr))
      obtain ⟨r, rest, hcons⟩ :=
        List.exists_cons_of_ne_nil (l := rank_from 0
          ((score_routes (e :: es)).mergeSort composite_ge))
          (by intro hnil; rw [hnil] at hlen; simp at hlen)
      have hmem : r ∈ rank_from 0 ((score_routes (e :: es)).mergeSort composite_ge) := by
        rw [hcons]; exact List.mem_cons_self _ _
      have hmiss : dictGet r.base "id" = none :=
        lack_of_mem _ _ _ hlack (rank_base_mem _ r hmem)
      show optimize_body (e :: es) = _
      simp only [optimize_body, hs, hs2]
      rw [if_neg (by rw [hlen]; simp)]
      simp only [hcons, best_route_id, hmiss]

/-! ## C5: the composite-score formula -/

/-- C5 (amended): the composite score stored on every processed route is
the weighted sum of the four exact sub-scores with weights 0.35, 0.25, 0.20
and 0.20, rounded to three decimal places: the cost sub-score is the
inverted min-max normalization of total_cost over the whole input list
(1 when the maximum equals the minimum), the risk sub-score is 1 minus the
risk_score, and the time and reliability sub-scores are the transport-mode
table lookups. -/
theorem score_route_composite_formula (rs : List JElem) (d : JDict) :
    (score_route rs d).composite_score =
      pyRound3 (
        (if pyMax (rs.map elem_total_cost) ≠ pyMin (rs.map elem_total_cost) then
          1 - ((getNumD d "total_cost" 1000 - pyMin (rs.map elem_total_cost)) /
            (pyMax (rs.map elem_total_cost) - pyMin (rs.map elem_total_cost)))
        else 1) * (35/100) +
        (1 - getNumD d "risk_score" (1/2)) * (25/100) +
        time_factor ((dictGet d "transport_mode").getD (.str "land")) * (20/100) +
        reliability_factor ((dictGet d "transport_mode").getD (.str "land")) * (20/100)) ∧
    (pyMax (rs.map elem_total_cost) = pyMin (rs.map elem_total_cost) →
      (score_route rs d).cost_score = 1) := by
  constructor
  · rfl
  · intro heq
    show pyRound3 (if pyMax (rs.map elem_total_cost) ≠ pyMin (rs.map elem_total_cost)
        then 1 - ((getNumD d "total_cost" 1000 - pyMin (rs.map elem_total_cost)) /
          (pyMax (rs.map elem_total_cost) - pyMin (rs.map elem_total_cost)))
        else 1) = 1
    rw [if_neg (by simpa using heq)]
    rw [pyRound3_eq_of_mul_eq _ 1000 (by norm_num)]
    norm_num

theorem roundHalfEven_eq_of_floor {α : Type} [LinearOrderedField α]
    [FloorRing α] (x : α) (n : ℤ) (hf : ⌊x⌋ = n) (hlt : x - (n : α) < 1/2) :
    roundHalfEven x = n := by
  unfold roundHalfEven
  rw [hf, if_pos hlt]

/-- C5 counterexample: for a single route with risk_score 0.12345, the
stored composite score is the rounded 0.829, not the exact weighted sum
0.8291375, so the claimed exact equality with the weighted sum fails. -/
theorem score_route_composite_not_exact :
    (score_route
        [.dict [("id", .num 1), ("total_cost", .num 100),
          ("risk_score", .num (2469/20000))]]
        [("id", .num 1), ("total_cost", .num 100),
          ("risk_score", .num (2469/20000))]).composite_score ≠
      1 * (35/100) + (1 - 2469/20000) * (25/100) +
        (6/10) * (20/100) + (7/10) * (20/100) := by
  have hscore : (score_route
      [.dict [("id", .num 1), ("total_cost", .num 100),
        ("risk_score", .num (2469/20000))]]
      [("id", .num 1), ("total_cost", .num 100),
        ("risk_score", .num (2469/20000))]).composite_score =
      pyRound3 ((1:ℚ) * (35/100) + (1 - 2469/20000) * (25/100) +
        (6/10) * (20/100) + (7/10) * (20/100)) := rfl
  have hval : pyRound3 ((1:ℚ) * (35/100) + (1 - 2469/20000) * (25/100) +
      (6/10) * (20/100) + (7/10) * (20/100)) = 829/1000 := by
    unfold pyRound3
    rw [roundHalfEven_eq_of_floor _ 829 (by norm_num) (by norm_num)]
    norm_num
  rw [hscore, hval]
  norm_num

/-- C5 witness: the formula theorem applied to a one-route list, where all
costs coincide and the cost sub-score is 1. -/
theorem score_route_composite_formula_witness :
    pyMax ([JElem.dict [("total_cost", JVal.num 50)]].map elem_total_cost) =
      pyMin ([JElem.dict [("total_cost", JVal.num 50)]].map elem_total_cost) ∧
    (score_route [JElem.dict [("total_cost", JVal.num 50)]]
      [("total_cost", JVal.num 50)]).cost_score = 1 :=
  ⟨rfl, (score_route_composite_formula
    [JElem.dict [("total_cost", JVal.num 50)]] [("total_cost", JVal.num 50)]).2 rfl⟩

/-- C4 witness: the top-3 theorem applied to a concrete one-route input on
which the optimizer succeeds. -/
theorem optimize_route_selection_top3_witness :
    ([JElem.dict [("id", JVal.num 1), ("total_cost", JVal.num 100),
        ("risk_score", JVal.num (1/2))]] ≠ ([] : List JElem)) ∧
    all_dicts [JElem.dict [("id", JVal.num 1), ("total_cost", JVal.num 100),
        ("risk_score", JVal.num (1/2))]] = true ∧
    optimize_route_selection (some (.list [JElem.dict [("id", JVal.num 1),
        ("total_cost", JVal.num 100), ("risk_score", JVal.num (1/2))]])) =
      .ok (.ok
        ⟨[⟨[("id", JVal.num 1), ("total_cost", JVal.num 100),
            ("risk_score", JVal.num (1/2))], 1, 1/2, 3/5, 7/10, 147/200, 1,
            true, "Best overall balance of cost, risk, and reliability"⟩],
         [⟨[("id", JVal.num 1), ("total_cost", JVal.num 100),
            ("risk_score", JVal.num (1/2))], 1, 1/2, 3/5, 7/10, 147/200, 1,
            true, "Best overall balance of cost, risk, and reliability"⟩],
         1, 1, 100, 1/2, some (JVal.num 1)⟩) ∧
    (OptimizationOutput.recommended_routes
        ⟨[⟨[("id", JVal.num 1), ("total_cost", JVal.num 100),
            ("risk_score", JVal.num (1/2))], 1, 1/2, 3/5, 7/10, 147/200, 1,
            true, "Best overall balance of cost, risk, and reliability"⟩],
         [⟨[("id", JVal.num 1), ("total_cost", JVal.num 100),
            ("risk_score", JVal.num (1/2))], 1, 1/2, 3/5, 7/10, 147/200, 1,
            true, "Best overall balance of cost, risk, and reliability"⟩],
         1, 1, 100, 1/2, some (JVal.num 1)⟩).length ≤ 3 := by
  have hsr : score_route
      [JElem.dict [("id", JVal.num 1), ("total_cost", JVal.num 100),
        ("risk_score", JVal.num (1/2))]]
      [("id", JVal.num 1), ("total_cost", JVal.num 100),
        ("risk_score", JVal.num (1/2))] =
      ⟨[("id", JVal.num 1), ("total_cost", JVal.num 100),
        ("risk_score", JVal.num (1/2))], 1, 1/2, 3/5, 7/10, 147/200, 0,
        false, ""⟩ := by
    simp only [score_route,
      show getNumD [("id", JVal.num 1), ("total_cost", JVal.num 100),
        ("risk_score", JVal.num (1/2))] "total_cost" 1000 = 100 from rfl,
      show getNumD [("id", JVal.num 1), ("total_cost", JVal.num 100),
        ("risk_score", JVal.num (1/2))] "risk_score" (1/2) = 1/2 from rfl,
      show (dictGet [("id", JVal.num 1), ("total_cost", JVal.num 100),
        ("risk_score", JVal.num (1/2))] "transport_mode").getD (.str "land") =
        .str "land" from rfl,
      show pyMax ([JElem.dict [("id", JVal.num 1), ("total_cost", JVal.num 100),
        ("risk_score", JVal.num (1/2))]].map elem_total_cost) = 100 from rfl,
      show pyMin ([JElem.dict [("id", JVal.num 1), ("total_cost", JVal.num 100),
        ("risk_score", JVal.num (1/2))]].map elem_total_cost) = 100 from rfl,
      show time_factor (.str "land") = 6/10 from rfl,
      show reliability_factor (.str "land") = 7/10 from rfl]
    rw [if_neg (by norm_num)]
    simp only [ScoredRoute.mk.injEq]
    refine ⟨by trivial, ?_, ?_, ?_, ?_, ?_, by trivial, by trivial, by trivial⟩
    · rw [pyRound3_eq_of_mul_eq _ 1000 (by norm_num)]; norm_num
    · rw [pyRound3_eq_of_mul_eq _ 500 (by norm_num)]; norm_num
    · rw [pyRound3_eq_of_mul_eq _ 600 (by norm_num)]; norm_num
    · rw [pyRound3_eq_of_mul_eq _ 700 (by norm_num)]; norm_num
    · rw [pyRound3_eq_of_mul_eq _ 735 (by norm_num)]; norm_num
  have hs2 : score_routes [JElem.dict [("id", JVal.num 1),
      ("total_cost", JVal.num 100), ("risk_score", JVal.num (1/2))]] =
      [⟨[("id", JVal.num 1), ("total_cost", JVal.num 100),
        ("risk_score", JVal.num (1/2))], 1, 1/2, 3/5, 7/10, 147/200, 0,
        false, ""⟩] := by
    rw [show score_routes [JElem.dict [("id", JVal.num 1),
      ("total_cost", JVal.num 100), ("risk_score", JVal.num (1/2))]] =
      [score_route [JElem.dict [("id", JVal.num 1), ("total_cost", JVal.num 100),
        ("risk_score", JVal.num (1/2))]]
        [("id", JVal.num 1), ("total_cost", JVal.num 100),
          ("risk_score", JVal.num (1/2))]] from rfl, hsr]
  have hm : List.mergeSort [(⟨[("id", JVal.num 1), ("total_cost", JVal.num 100),
      ("risk_score", JVal.num (1/2))], 1, 1/2, 3/5, 7/10, 147/200, 0,
      false, ""⟩ : ScoredRoute)] composite_ge =
      [⟨[("id", JVal.num 1), ("total_cost", JVal.num 100),
        ("risk_score", JVal.num (1/2))], 1, 1/2, 3/5, 7/10, 147/200, 0,
        false, ""⟩] := List.mergeSort_singleton _
  have hok : optimize_route_selection (some (.list [JElem.dict
      [("id", JVal.num 1), ("total_cost", JVal.num 100),
        ("risk_score", JVal.num (1/2))]])) =
      .ok (.ok
        ⟨[⟨[("id", JVal.num 1), ("total_cost", JVal.num 100),
            ("risk_score", JVal.num (1/2))], 1, 1/2, 3/5, 7/10, 147/200, 1,
            true, "Best overall balance of cost, risk, and reliability"⟩],
         [⟨[("id", JVal.num 1), ("total_cost", JVal.num 100),
            ("risk_score", JVal.num (1/2))], 1, 1/2, 3/5, 7/10, 147/200, 1,
            true, "Best overall balance of cost, risk, and reliability"⟩],
         1, 1, 100, 1/2, some (JVal.num 1)⟩) := by
    show optimize_body [JElem.dict [("id", JVal.num 1),
      ("total_cost", JVal.num 100), ("risk_score", JVal.num (1/2))]] = _
    simp only [optimize_body, hs2, hm,
      show rank_from 0 [(⟨[("id", JVal.num 1), ("total_cost", JVal.num 100),
        ("risk_score", JVal.num (1/2))], 1, 1/2, 3/5, 7/10, 147/200, 0,
        false, ""⟩ : ScoredRoute)] =
        [⟨[("id", JVal.num 1), ("total_cost", JVal.num 100),
          ("risk_score", JVal.num (1/2))], 1, 1/2, 3/5, 7/10, 147/200, 1,
          true, "Best overall balance of cost, risk, and reliability"⟩] from rfl,
      show sum_key "total_cost" [(⟨[("id", JVal.num 1),
        ("total_cost", JVal.num 100), ("risk_score", JVal.num (1/2))], 1, 1/2,
        3/5, 7/10, 147/200, 1, true,
        "Best overall balance of cost, risk, and reliability"⟩ : ScoredRoute)] =
        .ok (100 + 0) from rfl,
      show sum_key "risk_score" [(⟨[("id", JVal.num 1),
        ("total_cost", JVal.num 100), ("risk_score", JVal.num (1/2))], 1, 1/2,
        3/5, 7/10, 147/200, 1, true,
        "Best overall balance of cost, risk, and reliability"⟩ : ScoredRoute)] =
        .ok (1/2 + 0) from rfl,
      show best_route_id [(⟨[("id", JVal.num 1), ("total_cost", JVal.num 100),
        ("risk_score", JVal.num (1/2))], 1, 1/2, 3/5, 7/10, 147/200, 1, true,
        "Best overall balance of cost, risk, and reliability"⟩ : ScoredRoute)] =
        .ok (some (JVal.num 1)) from rfl]
    rw [if_neg (by simp)]
    simp only [List.length_cons, List.length_nil, Except.ok.injEq,
      OptResult.ok.injEq, OptimizationOutput.mk.injEq]
    refine ⟨by trivial, by trivial, by trivial, by trivial, ?_, ?_, by trivial⟩
    · rw [pyRound2_eq_of_mul_eq _ 10000 (by push_cast; norm_num)]; norm_num
    · rw [pyRound3_eq_of_mul_eq _ 500 (by push_cast; norm_num)]; norm_num
  exact ⟨List.cons_ne_nil _ _, rfl, hok,
    (optimize_route_selection_top3 _ _ (List.cons_ne_nil _ _) (by rfl) hok).1⟩

/-- C9 witness: the guards-and-exceptions theorem applied to a no-dict list
(division by zero) and to a dict list lacking total_cost (KeyError). -/
theorem optimize_route_selection_errors_witness :
    ([JElem.nondict 0] ≠ ([] : List JElem)) ∧
    no_dicts [JElem.nondict 0] = true ∧
    optimize_route_selection (some (.list [JElem.nondict 0])) =
      .error .zeroDivisionError ∧
    ([JElem.dict [("x", JVal.num 1)]] ≠ ([] : List JElem)) ∧
    all_dicts [JElem.dict [("x", JVal.num 1)]] = true ∧
    all_lack_key [JElem.dict [("x", JVal.num 1)]] "total_cost" = true ∧
    optimize_route_selection (some (.list [JElem.dict [("x", JVal.num 1)]])) =
      .error (.keyError "total_cost") :=
  ⟨List.cons_ne_nil _ _, rfl,
    optimize_route_selection_errors.2.2.2.1 _ (List.cons_ne_nil _ _) rfl,
    List.cons_ne_nil _ _, rfl, rfl,
    optimize_route_selection_errors.2.2.2.2.1 _ (List.cons_ne_nil _ _) rfl rfl⟩
